import Mathlib

/-!
Relay controller firmware: shallow embedding and verified properties

Two firmware variants are embedded:

* `Server` : `src/firmware/heating-server.cpp`
* `Main`   : `src/firmware/heating-firmware-esp32/src/main.cpp`

Both drive two relay pins (`PIN_RELAY_UP`, `PIN_RELAY_DOWN`) and keep a global
`g_state`. The pins are modelled by the two levels they latch; every
`digitalWrite` additionally appends the resulting pair of levels to a trace so
that properties "at every point" can be stated over the individual writes.
The build-time constants `RELAY_ACTIVE_LOW` and `USE_BASIC_AUTH` are taken as
parameters (`Config`).
-/

namespace Heating

/-! ## Platform model (Arduino core and web server library) -/

/-- Digital pin level. -/
inductive Level where
  | LOW
  | HIGH
  deriving DecidableEq, Repr

/-- The two relay pins of the firmware. -/
inductive Pin where
  | PIN_RELAY_UP
  | PIN_RELAY_DOWN
  deriving DecidableEq, Repr

/-- The enum class `MotionState` of both source files. -/
inductive MotionState where
  | Stopped
  | MovingUp
  | MovingDown
  deriving DecidableEq, Repr

/-- Build-time constants of the firmware. -/
structure Config where
  RELAY_ACTIVE_LOW : Bool
  USE_BASIC_AUTH : Bool
  deriving DecidableEq, Repr

/-- Mutable world of the firmware: the latched levels of the two relay pins,
the global `g_state`, and the trace of pin levels `(up, down)` observed right
after each `digitalWrite`, oldest first. -/
structure State where
  up : Level
  down : Level
  g_state : MotionState
  trace : List (Level × Level)
  deriving DecidableEq, Repr

/-- Arduino `digitalWrite(pin, v)`: latch `v` on the pin and record the
resulting levels. -/
def digitalWrite (pin : Pin) (v : Level) (s : State) : State :=
  match pin with
  | .PIN_RELAY_UP => { s with up := v, trace := s.trace ++ [(v, s.down)] }
  | .PIN_RELAY_DOWN => { s with down := v, trace := s.trace ++ [(s.up, v)] }

/-- Arduino `digitalRead(pin)`. -/
def digitalRead (pin : Pin) (s : State) : Level :=
  match pin with
  | .PIN_RELAY_UP => s.up
  | .PIN_RELAY_DOWN => s.down

/-- Arduino `pinMode(pin, OUTPUT)`: the latched level is not changed. -/
def pinModeOutput (_pin : Pin) (s : State) : State := s

/-- A channel is energized when its pin holds the triggering level of the
board: `LOW` for an active-low board, `HIGH` otherwise (the comment on
`RELAY_ACTIVE_LOW` in both files). -/
def energized (c : Config) (l : Level) : Bool :=
  if c.RELAY_ACTIVE_LOW then decide (l = Level.LOW) else decide (l = Level.HIGH)

/-- Both channels energized in a pair of pin levels `(up, down)`. -/
def bothOn (c : Config) (p : Level × Level) : Bool :=
  energized c p.1 && energized c p.2

/-- HTTP methods known to the web server library. -/
inductive HTTPMethod where
  | HTTP_GET
  | HTTP_HEAD
  | HTTP_POST
  | HTTP_PUT
  | HTTP_PATCH
  | HTTP_DELETE
  | HTTP_OPTIONS
  deriving DecidableEq, Repr

/-- One HTTP request as seen by the handlers: method, path, query arguments,
and the outcome of `server.authenticate(BASIC_USER, BASIC_PASS)` for the
credentials it carries. -/
structure Request where
  method : HTTPMethod
  uri : String
  args : List (String × String)
  authenticated : Bool
  deriving DecidableEq, Repr

/-- One HTTP response: status code, headers queued with `sendHeader`, the
content type and the body given to `server.send`. -/
structure Response where
  code : Nat
  headers : List (String × String)
  contentType : Option String
  body : String
  deriving DecidableEq, Repr

/-- Library `server.arg(name)`: value of the first argument with that key, the
empty string when there is none. -/
def serverArg (r : Request) (name : String) : String :=
  match r.args.find? (fun kv => kv.1 == name) with
  | some kv => kv.2
  | none => ""

/-- The three `sendHeader` calls shared by `sendJson` and `handleOptions`. -/
def corsHeaders : List (String × String) :=
  [("Access-Control-Allow-Origin", "*"),
   ("Access-Control-Allow-Methods", "GET,POST,OPTIONS"),
   ("Access-Control-Allow-Headers", "Content-Type, Authorization")]

/-- Library `server.requestAuthentication()` with its default arguments: a 401
carrying the `WWW-Authenticate` header (the comment in `checkAuth`). -/
def requestAuthentication : Response :=
  { code := 401
    headers := [("WWW-Authenticate", "Basic realm=\"Login Required\"")]
    contentType := some "text/html"
    body := "" }

/-- The function `checkAuth` (identical in both files): the returned flag and
the responses it emitted. -/
def checkAuth (c : Config) (r : Request) : Bool × List Response :=
  if c.USE_BASIC_AUTH then
    if !r.authenticated then (false, [requestAuthentication])
    else (true, [])
  else (true, [])

/-- The function `sendJson` (identical in both files). -/
def sendJson (code : Nat) (json : String) : Response :=
  { code := code, headers := corsHeaders, contentType := some "application/json", body := json }

/-- The function `handleOptions` (identical in both files). -/
def handleOptions : Response :=
  { code := 204, headers := corsHeaders, contentType := none, body := "" }

/-- The function `stateToString` (identical in both files). -/
def stateToString (m : MotionState) : String :=
  match m with
  | .MovingUp => "up"
  | .MovingDown => "down"
  | _ => "stopped"

/-- The handler given to `server.onNotFound` (identical in both files). -/
def handleNotFound (r : Request) (s : State) : State × List Response :=
  if r.method = HTTPMethod.HTTP_OPTIONS then (s, [handleOptions])
  else (s, [sendJson 404 "\x7b\"error\":\"not_found\"\x7d"])

/-- Memory and pins before `setup()` runs: arbitrary pin levels, `g_state`
at its static initialiser, nothing written yet. -/
def powerOn (up down : Level) : State :=
  { up := up, down := down, g_state := MotionState.Stopped, trace := [] }

/-! ## `src/firmware/heating-server.cpp` -/

namespace Server

/-- The function `relayWrite` of heating-server.cpp (branching form). -/
def relayWrite (c : Config) (pin : Pin) (isOn : Bool) (s : State) : State :=
  if c.RELAY_ACTIVE_LOW then
    digitalWrite pin (if isOn then Level.LOW else Level.HIGH) s
  else
    digitalWrite pin (if isOn then Level.HIGH else Level.LOW) s

/-- The function `stopAll` of heating-server.cpp. -/
def stopAll (c : Config) (s : State) : State :=
  let s1 := relayWrite c Pin.PIN_RELAY_UP false s
  let s2 := relayWrite c Pin.PIN_RELAY_DOWN false s1
  { s2 with g_state := MotionState.Stopped }

/-- The function `moveUp` of heating-server.cpp. -/
def moveUp (c : Config) (s : State) : State :=
  let s1 := relayWrite c Pin.PIN_RELAY_DOWN false s
  let s2 := relayWrite c Pin.PIN_RELAY_UP true s1
  { s2 with g_state := MotionState.MovingUp }

/-- The function `moveDown` of heating-server.cpp. -/
def moveDown (c : Config) (s : State) : State :=
  let s1 := relayWrite c Pin.PIN_RELAY_UP false s
  let s2 := relayWrite c Pin.PIN_RELAY_DOWN true s1
  { s2 with g_state := MotionState.MovingDown }

/-- Handler of `GET /health`. -/
def handleHealth (c : Config) (r : Request) (s : State) : State × List Response :=
  let a := checkAuth c r
  if !a.1 then (s, a.2)
  else (s, a.2 ++ [sendJson 200 "\x7b\"ok\":true\x7d"])

/-- Handler of `GET /state`. -/
def handleState (c : Config) (r : Request) (s : State) : State × List Response :=
  let a := checkAuth c r
  if !a.1 then (s, a.2)
  else
    let str := stateToString s.g_state
    (s, a.2 ++ [sendJson 200 ("\x7b\"state\":\"" ++ str ++ "\"\x7d")])

/-- Handler of `POST /up`. -/
def handleUp (c : Config) (r : Request) (s : State) : State × List Response :=
  let a := checkAuth c r
  if !a.1 then (s, a.2)
  else (moveUp c s, a.2 ++ [sendJson 200 "\x7b\"ok\":true,\"action\":\"up\"\x7d"])

/-- Handler of `POST /down`. -/
def handleDown (c : Config) (r : Request) (s : State) : State × List Response :=
  let a := checkAuth c r
  if !a.1 then (s, a.2)
  else (moveDown c s, a.2 ++ [sendJson 200 "\x7b\"ok\":true,\"action\":\"down\"\x7d"])

/-- Handler of `POST /stop`. -/
def handleStop (c : Config) (r : Request) (s : State) : State × List Response :=
  let a := checkAuth c r
  if !a.1 then (s, a.2)
  else (stopAll c s, a.2 ++ [sendJson 200 "\x7b\"ok\":true,\"action\":\"stop\"\x7d"])

/-- Dispatch of one request over the routes registered by `setupRoutes`
(`server.handleClient()` in `loop`). -/
def handleClient (c : Config) (s : State) (r : Request) : State × List Response :=
  if r.uri = "/health" ∧ r.method = HTTPMethod.HTTP_GET then handleHealth c r s
  else if r.uri = "/state" ∧ r.method = HTTPMethod.HTTP_GET then handleState c r s
  else if r.uri = "/up" ∧ r.method = HTTPMethod.HTTP_POST then handleUp c r s
  else if r.uri = "/down" ∧ r.method = HTTPMethod.HTTP_POST then handleDown c r s
  else if r.uri = "/stop" ∧ r.method = HTTPMethod.HTTP_POST then handleStop c r s
  else handleNotFound r s

/-- The relay part of `setup()`: both pins to output, then `stopAll()`. -/
def setup (c : Config) (s : State) : State :=
  stopAll c (pinModeOutput Pin.PIN_RELAY_DOWN (pinModeOutput Pin.PIN_RELAY_UP s))

/-- State after serving a sequence of requests one at a time. -/
def run (c : Config) (s : State) (rs : List Request) : State :=
  rs.foldl (fun st r => (handleClient c st r).1) s

end Server

/-! ## `src/firmware/heating-firmware-esp32/src/main.cpp` -/

namespace Main

/-- The constant `RELAY_ON` of main.cpp. -/
def RELAY_ON (c : Config) : Level :=
  if c.RELAY_ACTIVE_LOW then Level.LOW else Level.HIGH

/-- The constant `RELAY_OFF` of main.cpp. -/
def RELAY_OFF (c : Config) : Level :=
  if c.RELAY_ACTIVE_LOW then Level.HIGH else Level.LOW

/-- The function `relayWrite` of main.cpp (constant-based form). -/
def relayWrite (c : Config) (pin : Pin) (isOn : Bool) (s : State) : State :=
  digitalWrite pin (if isOn then RELAY_ON c else RELAY_OFF c) s

/-- The function `stopAll` of main.cpp. -/
def stopAll (c : Config) (s : State) : State :=
  let s1 := relayWrite c Pin.PIN_RELAY_UP false s
  let s2 := relayWrite c Pin.PIN_RELAY_DOWN false s1
  { s2 with g_state := MotionState.Stopped }

/-- The function `moveUp` of main.cpp. -/
def moveUp (c : Config) (s : State) : State :=
  let s1 := relayWrite c Pin.PIN_RELAY_DOWN false s
  let s2 := relayWrite c Pin.PIN_RELAY_UP true s1
  { s2 with g_state := MotionState.MovingUp }

/-- The function `moveDown` of main.cpp. -/
def moveDown (c : Config) (s : State) : State :=
  let s1 := relayWrite c Pin.PIN_RELAY_UP false s
  let s2 := relayWrite c Pin.PIN_RELAY_DOWN true s1
  { s2 with g_state := MotionState.MovingDown }

/-- Read-back of one channel as done by the `/state` handler:
`digitalRead(pin) == RELAY_ON`. -/
def relayIsOn (c : Config) (pin : Pin) (s : State) : Bool :=
  decide (digitalRead pin s = RELAY_ON c)

/-- Handler of `GET /health`. -/
def handleHealth (c : Config) (r : Request) (s : State) : State × List Response :=
  let a := checkAuth c r
  if !a.1 then (s, a.2)
  else (s, a.2 ++ [sendJson 200 "\x7b\"ok\":true\x7d"])

/-- Handler of `GET /state`: each relay reported independently. -/
def handleState (c : Config) (r : Request) (s : State) : State × List Response :=
  let a := checkAuth c r
  if !a.1 then (s, a.2)
  else
    let upOn := relayIsOn c Pin.PIN_RELAY_UP s
    let downOn := relayIsOn c Pin.PIN_RELAY_DOWN s
    let json := "\x7b\"up\":" ++ (if upOn then "true" else "false") ++
      ",\"down\":" ++ (if downOn then "true" else "false") ++ "\x7d"
    (s, a.2 ++ [sendJson 200 json])

/-- Handler of `POST /up`: turns UP on, does not touch DOWN. -/
def handleUp (c : Config) (r : Request) (s : State) : State × List Response :=
  let a := checkAuth c r
  if !a.1 then (s, a.2)
  else (relayWrite c Pin.PIN_RELAY_UP true s,
        a.2 ++ [sendJson 200 "\x7b\"ok\":true,\"action\":\"up_on\"\x7d"])

/-- Handler of `POST /down`: turns DOWN on, does not touch UP. -/
def handleDown (c : Config) (r : Request) (s : State) : State × List Response :=
  let a := checkAuth c r
  if !a.1 then (s, a.2)
  else (relayWrite c Pin.PIN_RELAY_DOWN true s,
        a.2 ++ [sendJson 200 "\x7b\"ok\":true,\"action\":\"down_on\"\x7d"])

/-- The relay writes of the `/stop` handler for a selector value `which`. -/
def stopRelays (c : Config) (which : String) (s : State) : State :=
  if which = "up" then relayWrite c Pin.PIN_RELAY_UP false s
  else if which = "down" then relayWrite c Pin.PIN_RELAY_DOWN false s
  else relayWrite c Pin.PIN_RELAY_DOWN false (relayWrite c Pin.PIN_RELAY_UP false s)

/-- Handler of `POST /stop` with the optional query parameter `relay`. -/
def handleStop (c : Config) (r : Request) (s : State) : State × List Response :=
  let a := checkAuth c r
  if !a.1 then (s, a.2)
  else
    let which := serverArg r "relay"
    (stopRelays c which s,
     a.2 ++ [sendJson 200
       ("\x7b\"ok\":true,\"action\":\"stop\",\"which\":\"" ++ which ++ "\"\x7d")])

/-- Dispatch of one request over the routes registered by `setupRoutes`
(`server.handleClient()` in `loop`). -/
def handleClient (c : Config) (s : State) (r : Request) : State × List Response :=
  if r.uri = "/health" ∧ r.method = HTTPMethod.HTTP_GET then handleHealth c r s
  else if r.uri = "/state" ∧ r.method = HTTPMethod.HTTP_GET then handleState c r s
  else if r.uri = "/up" ∧ r.method = HTTPMethod.HTTP_POST then handleUp c r s
  else if r.uri = "/down" ∧ r.method = HTTPMethod.HTTP_POST then handleDown c r s
  else if r.uri = "/stop" ∧ r.method = HTTPMethod.HTTP_POST then handleStop c r s
  else handleNotFound r s

/-- The relay part of `setup()`: both pins to output, then `stopAll()`. -/
def setup (c : Config) (s : State) : State :=
  stopAll c (pinModeOutput Pin.PIN_RELAY_DOWN (pinModeOutput Pin.PIN_RELAY_UP s))

/-- State after serving a sequence of requests one at a time. -/
def run (c : Config) (s : State) (rs : List Request) : State :=
  rs.foldl (fun st r => (handleClient c st r).1) s

end Main

/-- The five (path, method) pairs registered with `server.on` in both files. -/
def isRegistered (r : Request) : Bool :=
  decide ((r.uri = "/health" ∧ r.method = HTTPMethod.HTTP_GET) ∨
    (r.uri = "/state" ∧ r.method = HTTPMethod.HTTP_GET) ∨
    (r.uri = "/up" ∧ r.method = HTTPMethod.HTTP_POST) ∨
    (r.uri = "/down" ∧ r.method = HTTPMethod.HTTP_POST) ∨
    (r.uri = "/stop" ∧ r.method = HTTPMethod.HTTP_POST))

/-- Convenience constructor for a request with given credentials outcome. -/
def mkReq (m : HTTPMethod) (uri : String) (args : List (String × String)) (ok : Bool) : Request :=
  { method := m, uri := uri, args := args, authenticated := ok }

/-- Every recorded pair of pin levels has at most one channel energized. -/
def traceSafe (c : Config) (t : List (Level × Level)) : Bool :=
  t.all (fun p => !bothOn c p)

/-- Safety invariant of a state: no recorded point and not the current pin
levels have both channels energized. -/
def Safe (c : Config) (s : State) : Prop :=
  traceSafe c s.trace = true ∧ bothOn c (s.up, s.down) = false

/-- The Up channel is de-energized now and no recorded point had both on. -/
def UpIdle (c : Config) (s : State) : Prop :=
  traceSafe c s.trace = true ∧ energized c s.up = false

/-- The Down channel is de-energized now and no recorded point had both on. -/
def DownIdle (c : Config) (s : State) : Prop :=
  traceSafe c s.trace = true ∧ energized c s.down = false

/-- Request `POST /up` without credentials. -/
def postUp : Request := mkReq HTTPMethod.HTTP_POST "/up" [] false

/-- Request `POST /down` without credentials. -/
def postDown : Request := mkReq HTTPMethod.HTTP_POST "/down" [] false

/-- Request `POST /stop` with the given query arguments, without credentials. -/
def postStop (args : List (String × String)) : Request :=
  mkReq HTTPMethod.HTTP_POST "/stop" args false

/-- Configuration of the sources as shipped: active-low relays, no auth. -/
def shipped : Config := { RELAY_ACTIVE_LOW := true, USE_BASIC_AUTH := false }

/-- Pairs of pin levels recorded while going from state `s` to state `t`. -/
def newPoints (s t : State) : List (Level × Level) :=
  t.trace.drop s.trace.length

/-- A reachable state of heating-server.cpp in which Down is energized:
boot, then `moveDown()`. -/
def serverMovingDown : State :=
  Server.moveDown shipped (Server.setup shipped (powerOn Level.HIGH Level.HIGH))

/-- A state of main.cpp in which both channels are energized. -/
def bothEnergized : State :=
  { up := Level.LOW, down := Level.LOW, g_state := MotionState.Stopped, trace := [] }

/-- The same request carrying credentials that `server.authenticate`
accepts. -/
def authed (r : Request) : Request := { r with authenticated := true }

/-- Request `GET /state` without credentials. -/
def getState : Request := mkReq HTTPMethod.HTTP_GET "/state" [] false

/-- Request `GET /health` without credentials. -/
def getHealth : Request := mkReq HTTPMethod.HTTP_GET "/health" [] false

/-- Scenario on heating-server.cpp, step 1: boot, then `POST /up`. -/
def serverScenarioUp (c : Config) (up down : Level) : State × List Response :=
  Server.handleClient c (Server.setup c (powerOn up down)) (authed postUp)

/-- Scenario on heating-server.cpp, step 2: then `POST /down`. -/
def serverScenarioDown (c : Config) (up down : Level) : State × List Response :=
  Server.handleClient c (serverScenarioUp c up down).1 (authed postDown)

/-- Scenario on heating-server.cpp, step 3: then `POST /stop`. -/
def serverScenarioStop (c : Config) (up down : Level) : State × List Response :=
  Server.handleClient c (serverScenarioDown c up down).1 (authed (postStop []))

/-- Scenario on heating-server.cpp, step 4: then `GET /state`. -/
def serverScenarioState (c : Config) (up down : Level) : State × List Response :=
  Server.handleClient c (serverScenarioStop c up down).1 (authed getState)

/-- A response carries all three permissive CORS headers. -/
def hasCors (x : Response) : Bool :=
  corsHeaders.all (fun h => x.headers.contains h)

/-- Configuration with Basic Auth compiled in (`USE_BASIC_AUTH = 1`). -/
def withAuth : Config := { RELAY_ACTIVE_LOW := true, USE_BASIC_AUTH := true }

/-- Level resolution as the design notes word it: `resolveLevel(activeLow,
wantEnergized)` by boolean XOR, `HIGH` exactly when the two flags differ. -/
def resolveLevel (activeLow wantEnergized : Bool) : Level :=
  if xor wantEnergized activeLow then Level.HIGH else Level.LOW

/-- Text of a boolean as the `/state` handler of main.cpp prints it. -/
def boolText (b : Bool) : String := if b then "true" else "false"

/-- In heating-server.cpp the logical `g_state` agrees with the pin levels:
`Stopped` with both channels de-energized, `MovingUp` with only Up energized,
`MovingDown` with only Down energized. -/
def Agrees (c : Config) (s : State) : Prop :=
  match s.g_state with
  | .Stopped => energized c s.up = false ∧ energized c s.down = false
  | .MovingUp => energized c s.up = true ∧ energized c s.down = false
  | .MovingDown => energized c s.up = false ∧ energized c s.down = true

/-! ### JSON reading of the flat objects sent by the firmware (RFC 8259) -/

/-- JSON values occurring in the objects the firmware sends. -/
inductive JVal where
  | str (s : String)
  | bool (b : Bool)
  deriving DecidableEq, Repr

/-- Outcome of decoding a response body as a JSON object. -/
inductive Decoded where
  | object (members : List (String × JVal))
  | malformed
  | outOfFuel
  deriving DecidableEq, Repr

/-- Character denoted by a one-letter JSON escape: quote (34), backslash (92),
slash (47), `b`, `f`, `n`, `r`, `t`. Unicode escapes are not decoded. -/
def jsonUnescape (e : Char) : Option Char :=
  if e.toNat = 34 then some (Char.ofNat 34)
  else if e.toNat = 92 then some (Char.ofNat 92)
  else if e.toNat = 47 then some (Char.ofNat 47)
  else if e = 'b' then some (Char.ofNat 8)
  else if e = 'f' then some (Char.ofNat 12)
  else if e = 'n' then some (Char.ofNat 10)
  else if e = 'r' then some (Char.ofNat 13)
  else if e = 't' then some (Char.ofNat 9)
  else none

/-- Read a JSON string literal from just after its opening quote: the decoded
characters and the input left after the closing quote. A quote (34) ends the
literal, a backslash (92) starts an escape, a raw control character is
rejected. -/
def scanString : List Char → Option (List Char × List Char)
  | [] => none
  | ch :: rest =>
    if ch.toNat = 34 then some ([], rest)
    else if ch.toNat = 92 then
      match rest with
      | [] => none
      | e :: rest2 =>
        match jsonUnescape e, scanString rest2 with
        | some d, some (out, tail) => some (d :: out, tail)
        | _, _ => none
    else if ch.toNat < 32 then none
    else
      match scanString rest with
      | some (out, tail) => some (ch :: out, tail)
      | none => none

/-- Remove the given literal from the front of the input, if it is there. -/
def stripLit : List Char → List Char → Option (List Char)
  | [], cs => some cs
  | _ :: _, [] => none
  | l :: ls, ch :: cs => if l = ch then stripLit ls cs else none

/-- Read one JSON value: a string literal, `true` or `false`. -/
def scanValue (cs : List Char) : Option (JVal × List Char) :=
  match cs with
  | [] => none
  | ch :: rest =>
    if ch.toNat = 34 then
      match scanString rest with
      | some (out, tail) => some (JVal.str (String.mk out), tail)
      | none => none
    else
      match stripLit "true".toList cs with
      | some tail => some (JVal.bool true, tail)
      | none =>
        match stripLit "false".toList cs with
        | some tail => some (JVal.bool false, tail)
        | none => none

/-- Read one object member: a string literal, a colon (58), a value. -/
def scanMember (cs : List Char) : Option ((String × JVal) × List Char) :=
  match cs with
  | [] => none
  | ch :: rest =>
    if ch.toNat = 34 then
      match scanString rest with
      | some (key, c2 :: rest2) =>
        if c2.toNat = 58 then
          match scanValue rest2 with
          | some (v, tail) => some ((String.mk key, v), tail)
          | none => none
        else none
      | _ => none
    else none

/-- Read the members of an object up to the closing brace (125), which must
end the input; members are separated by a comma (44). One unit of fuel is
spent per member. -/
def scanMembers : Nat → List Char → Decoded
  | 0, _ => Decoded.outOfFuel
  | fuel + 1, cs =>
    match scanMember cs with
    | none => Decoded.malformed
    | some (_, []) => Decoded.malformed
    | some (m, ch :: tail) =>
      if ch.toNat = 125 then
        (if tail = [] then Decoded.object [m] else Decoded.malformed)
      else if ch.toNat = 44 then
        match scanMembers fuel tail with
        | Decoded.object ms => Decoded.object (m :: ms)
        | other => other
      else Decoded.malformed

/-- Decode a whole body as a JSON object without insignificant whitespace:
an opening brace (123), members, a closing brace. The fuel is the length of
the body, more than the number of members it can hold. -/
def decodeObject (body : String) : Decoded :=
  match body.toList with
  | [] => Decoded.malformed
  | ch :: rest =>
    if ch.toNat = 123 then
      (if rest = [Char.ofNat 125] then Decoded.object [] else scanMembers rest.length rest)
    else Decoded.malformed

/-- Selector value `a"b`, containing a double quote. -/
def quoteSelector : String := "a\"b"

/-- Selector value `a\`, ending in a backslash. -/
def backslashSelector : String := "a\\"

/-- A request of main.cpp clashes with the state it is handled in when it
passes `checkAuth()` and is a `POST /up` arriving while Down is energized, or a
`POST /down` arriving while Up is energized. -/
def clash (c : Config) (s : State) (r : Request) : Bool :=
  (checkAuth c r).1 && r.method = HTTPMethod.HTTP_POST &&
    ((r.uri = "/up" && energized c s.down) || (r.uri = "/down" && energized c s.up))

/-- Some request of the sequence clashes with the state main.cpp handles it
in, the requests being served one at a time from state `s`. -/
def runClash (c : Config) : State → List Request → Bool
  | _, [] => false
  | s, r :: rs => clash c s r || runClash c (Main.handleClient c s r).1 rs

/-! ## Theorems -/

section AuthBasics

theorem checkAuth_pass (c : Config) (r : Request) (h : (checkAuth c r).1 = true) :
    checkAuth c r = (true, []) := by
  unfold checkAuth at h ⊢
  split_ifs at h ⊢ <;> simp_all

end AuthBasics

section ServerSafety

theorem server_stopAll_safe_of_any (c : Config) (s : State)
    (h : traceSafe c s.trace = true) : Safe c (Server.stopAll c s) := by
  rcases c with ⟨al, ba⟩
  rcases s with ⟨u, d, g, tr⟩
  cases al <;> cases u <;> cases d <;>
    simp_all [Safe, traceSafe, Server.stopAll, Server.relayWrite, digitalWrite, bothOn, energized]

theorem server_moveUp_safe (c : Config) (s : State) (h : Safe c s) :
    Safe c (Server.moveUp c s) := by
  rcases c with ⟨al, ba⟩
  rcases s with ⟨u, d, g, tr⟩
  cases al <;> cases u <;> cases d <;>
    simp_all [Safe, traceSafe, Server.moveUp, Server.relayWrite, digitalWrite, bothOn, energized]

theorem server_moveDown_safe (c : Config) (s : State) (h : Safe c s) :
    Safe c (Server.moveDown c s) := by
  rcases c with ⟨al, ba⟩
  rcases s with ⟨u, d, g, tr⟩
  cases al <;> cases u <;> cases d <;>
    simp_all [Safe, traceSafe, Server.moveDown, Server.relayWrite, digitalWrite, bothOn, energized]

theorem server_handleClient_safe (c : Config) (s : State) (r : Request) (h : Safe c s) :
    Safe c (Server.handleClient c s r).1 := by
  unfold Server.handleClient
  split_ifs
  · dsimp only [Server.handleHealth]; split_ifs <;> exact h
  · dsimp only [Server.handleState]; split_ifs <;> exact h
  · dsimp only [Server.handleUp]; split_ifs
    · exact h
    · exact server_moveUp_safe c s h
  · dsimp only [Server.handleDown]; split_ifs
    · exact h
    · exact server_moveDown_safe c s h
  · dsimp only [Server.handleStop]; split_ifs
    · exact h
    · exact server_stopAll_safe_of_any c s h.1
  · dsimp only [handleNotFound]; split_ifs <;> exact h

theorem server_run_safe (c : Config) (rs : List Request) :
    ∀ s : State, Safe c s → Safe c (Server.run c s rs) := by
  induction rs with
  | nil => intro s h; exact h
  | cons r rs ih =>
    intro s h
    exact ih _ (server_handleClient_safe c s r h)

theorem server_setup_safe (c : Config) (up down : Level) :
    Safe c (Server.setup c (powerOn up down)) :=
  server_stopAll_safe_of_any c _ rfl

end ServerSafety

/-- C2. In heating-server.cpp, from power-on with any pin levels, after
`setup()` and any finite sequence of requests, every pair of pin levels
recorded right after an individual `digitalWrite` (the writes of `setup`
included, and those between the two writes inside `moveUp`, `moveDown` and
`stopAll`) has at most one channel energized, and so have the final levels. -/
theorem server_never_both_energized (c : Config) (up down : Level) (rs : List Request) :
    traceSafe c (Server.run c (Server.setup c (powerOn up down)) rs).trace = true ∧
    bothOn c ((Server.run c (Server.setup c (powerOn up down)) rs).up,
      (Server.run c (Server.setup c (powerOn up down)) rs).down) = false :=
  server_run_safe c rs _ (server_setup_safe c up down)

section MainSafety

theorem main_stopRelays_upIdle (c : Config) (w : String) (s : State) (h : UpIdle c s) :
    UpIdle c (Main.stopRelays c w s) := by
  rcases c with ⟨al, ba⟩
  rcases s with ⟨u, d, g, tr⟩
  unfold Main.stopRelays
  split_ifs <;> cases al <;> cases u <;> cases d <;>
    simp_all [UpIdle, traceSafe, Main.relayWrite, Main.RELAY_ON, Main.RELAY_OFF, digitalWrite,
      bothOn, energized]

theorem main_stopRelays_downIdle (c : Config) (w : String) (s : State) (h : DownIdle c s) :
    DownIdle c (Main.stopRelays c w s) := by
  rcases c with ⟨al, ba⟩
  rcases s with ⟨u, d, g, tr⟩
  unfold Main.stopRelays
  split_ifs <;> cases al <;> cases u <;> cases d <;>
    simp_all [DownIdle, traceSafe, Main.relayWrite, Main.RELAY_ON, Main.RELAY_OFF, digitalWrite,
      bothOn, energized]

theorem main_down_on_upIdle (c : Config) (s : State) (h : UpIdle c s) :
    UpIdle c (Main.relayWrite c Pin.PIN_RELAY_DOWN true s) := by
  rcases c with ⟨al, ba⟩
  rcases s with ⟨u, d, g, tr⟩
  cases al <;> cases u <;> cases d <;>
    simp_all [UpIdle, traceSafe, Main.relayWrite, Main.RELAY_ON, Main.RELAY_OFF, digitalWrite,
      bothOn, energized]

theorem main_up_on_downIdle (c : Config) (s : State) (h : DownIdle c s) :
    DownIdle c (Main.relayWrite c Pin.PIN_RELAY_UP true s) := by
  rcases c with ⟨al, ba⟩
  rcases s with ⟨u, d, g, tr⟩
  cases al <;> cases u <;> cases d <;>
    simp_all [DownIdle, traceSafe, Main.relayWrite, Main.RELAY_ON, Main.RELAY_OFF, digitalWrite,
      bothOn, energized]

theorem main_handleClient_upIdle (c : Config) (s : State) (r : Request)
    (hr : ¬(r.uri = "/up" ∧ r.method = HTTPMethod.HTTP_POST)) (h : UpIdle c s) :
    UpIdle c (Main.handleClient c s r).1 := by
  unfold Main.handleClient
  split_ifs
  · dsimp only [Main.handleHealth]; split_ifs <;> exact h
  · dsimp only [Main.handleState]; split_ifs <;> exact h
  · dsimp only [Main.handleDown]; split_ifs
    · exact h
    · exact main_down_on_upIdle c s h
  · dsimp only [Main.handleStop]; split_ifs
    · exact h
    · exact main_stopRelays_upIdle c _ s h
  · dsimp only [handleNotFound]; split_ifs <;> exact h

theorem main_handleClient_downIdle (c : Config) (s : State) (r : Request)
    (hr : ¬(r.uri = "/down" ∧ r.method = HTTPMethod.HTTP_POST)) (h : DownIdle c s) :
    DownIdle c (Main.handleClient c s r).1 := by
  unfold Main.handleClient
  split_ifs
  · dsimp only [Main.handleHealth]; split_ifs <;> exact h
  · dsimp only [Main.handleState]; split_ifs <;> exact h
  · dsimp only [Main.handleUp]; split_ifs
    · exact h
    · exact main_up_on_downIdle c s h
  · dsimp only [Main.handleStop]; split_ifs
    · exact h
    · exact main_stopRelays_downIdle c _ s h
  · dsimp only [handleNotFound]; split_ifs <;> exact h

theorem main_run_upIdle (c : Config) (rs : List Request) :
    ∀ s : State, (∀ r ∈ rs, ¬(r.uri = "/up" ∧ r.method = HTTPMethod.HTTP_POST)) →
      UpIdle c s → UpIdle c (Main.run c s rs) := by
  induction rs with
  | nil => intro s _ h; exact h
  | cons r rs ih =>
    intro s hr h
    exact ih _ (fun q hq => hr q (List.mem_cons_of_mem _ hq))
      (main_handleClient_upIdle c s r (hr r (List.mem_cons_self _ _)) h)

theorem main_run_downIdle (c : Config) (rs : List Request) :
    ∀ s : State, (∀ r ∈ rs, ¬(r.uri = "/down" ∧ r.method = HTTPMethod.HTTP_POST)) →
      DownIdle c s → DownIdle c (Main.run c s rs) := by
  induction rs with
  | nil => intro s _ h; exact h
  | cons r rs ih =>
    intro s hr h
    exact ih _ (fun q hq => hr q (List.mem_cons_of_mem _ hq))
      (main_handleClient_downIdle c s r (hr r (List.mem_cons_self _ _)) h)

theorem main_setup_idle (c : Config) (up down : Level) :
    UpIdle c (Main.setup c (powerOn up down)) ∧ DownIdle c (Main.setup c (powerOn up down)) := by
  rcases c with ⟨al, ba⟩
  cases al <;> cases up <;> cases down <;>
    simp [UpIdle, DownIdle, traceSafe, Main.setup, Main.stopAll, pinModeOutput, powerOn,
      Main.relayWrite, Main.RELAY_ON, Main.RELAY_OFF, digitalWrite, bothOn, energized]

theorem upIdle_bothOn (c : Config) (s : State) (h : UpIdle c s) :
    bothOn c (s.up, s.down) = false := by
  simp [bothOn, h.2]

theorem downIdle_bothOn (c : Config) (s : State) (h : DownIdle c s) :
    bothOn c (s.up, s.down) = false := by
  simp [bothOn, h.2]

end MainSafety

/-- C1 (as stated, refuted). In main.cpp, after boot with the shipped
configuration, `POST /up` followed by `POST /down` leaves both channels
energized: the final pin levels and the last recorded point have both on. -/
theorem main_up_then_down_energizes_both :
    bothOn shipped ((Main.run shipped (Main.setup shipped (powerOn Level.HIGH Level.HIGH))
        [postUp, postDown]).up,
      (Main.run shipped (Main.setup shipped (powerOn Level.HIGH Level.HIGH))
        [postUp, postDown]).down) = true ∧
    traceSafe shipped (Main.run shipped (Main.setup shipped (powerOn Level.HIGH Level.HIGH))
        [postUp, postDown]).trace = false := by
  constructor <;> rfl

/-- Sequences lacking one of the two commands: in main.cpp, from power-on
with any pin levels, after
`setup()` and any finite sequence of requests that contains no `POST /up`, or
contains no `POST /down`, every pair of pin levels recorded right after an
individual `digitalWrite` has at most one channel energized, and so have the
final levels. -/
theorem main_never_both_without_up_and_down (c : Config) (up down : Level) (rs : List Request)
    (h : (∀ r ∈ rs, ¬(r.uri = "/up" ∧ r.method = HTTPMethod.HTTP_POST)) ∨
         (∀ r ∈ rs, ¬(r.uri = "/down" ∧ r.method = HTTPMethod.HTTP_POST))) :
    traceSafe c (Main.run c (Main.setup c (powerOn up down)) rs).trace = true ∧
    bothOn c ((Main.run c (Main.setup c (powerOn up down)) rs).up,
      (Main.run c (Main.setup c (powerOn up down)) rs).down) = false := by
  rcases h with h | h
  · have hi := main_run_upIdle c rs _ h (main_setup_idle c up down).1
    exact ⟨hi.1, upIdle_bothOn c _ hi⟩
  · have hi := main_run_downIdle c rs _ h (main_setup_idle c up down).2
    exact ⟨hi.1, downIdle_bothOn c _ hi⟩

/-- Instance of the previous statement: `POST /up`, `POST /stop?relay=up`,
`POST /up` contains no `POST /down`. -/
theorem main_never_both_without_up_and_down_witness :
    ((∀ r ∈ [postUp, postStop [("relay", "up")], postUp],
        ¬(r.uri = "/up" ∧ r.method = HTTPMethod.HTTP_POST)) ∨
      (∀ r ∈ [postUp, postStop [("relay", "up")], postUp],
        ¬(r.uri = "/down" ∧ r.method = HTTPMethod.HTTP_POST))) ∧
    traceSafe shipped (Main.run shipped (Main.setup shipped (powerOn Level.LOW Level.LOW))
      [postUp, postStop [("relay", "up")], postUp]).trace = true ∧
    bothOn shipped ((Main.run shipped (Main.setup shipped (powerOn Level.LOW Level.LOW))
        [postUp, postStop [("relay", "up")], postUp]).up,
      (Main.run shipped (Main.setup shipped (powerOn Level.LOW Level.LOW))
        [postUp, postStop [("relay", "up")], postUp]).down) = false :=
  ⟨Or.inr (by decide),
   main_never_both_without_up_and_down shipped Level.LOW Level.LOW
     [postUp, postStop [("relay", "up")], postUp] (Or.inr (by decide))⟩

section MainClash

theorem traceSafe_append (c : Config) (a b : List (Level × Level)) :
    traceSafe c (a ++ b) = (traceSafe c a && traceSafe c b) := by
  simp [traceSafe, List.all_append]

theorem main_relayWrite_stays_broken (c : Config) (pin : Pin) (b : Bool) (s : State)
    (h : traceSafe c s.trace = false) : traceSafe c (Main.relayWrite c pin b s).trace = false := by
  cases pin <;> simp [Main.relayWrite, digitalWrite, traceSafe_append, h]

theorem main_handleClient_stays_broken (c : Config) (s : State) (r : Request)
    (h : traceSafe c s.trace = false) :
    traceSafe c (Main.handleClient c s r).1.trace = false := by
  unfold Main.handleClient
  split_ifs
  · dsimp only [Main.handleHealth]; split_ifs <;> exact h
  · dsimp only [Main.handleState]; split_ifs <;> exact h
  · dsimp only [Main.handleUp]; split_ifs
    · exact h
    · exact main_relayWrite_stays_broken c _ _ s h
  · dsimp only [Main.handleDown]; split_ifs
    · exact h
    · exact main_relayWrite_stays_broken c _ _ s h
  · dsimp only [Main.handleStop]; split_ifs
    · exact h
    · dsimp only [Main.stopRelays]
      split_ifs
      · exact main_relayWrite_stays_broken c _ _ s h
      · exact main_relayWrite_stays_broken c _ _ s h
      · exact main_relayWrite_stays_broken c _ _ _ (main_relayWrite_stays_broken c _ _ s h)
  · dsimp only [handleNotFound]; split_ifs <;> exact h

theorem main_run_stays_broken (c : Config) (rs : List Request) :
    ∀ s : State, traceSafe c s.trace = false → traceSafe c (Main.run c s rs).trace = false := by
  induction rs with
  | nil => intro s h; exact h
  | cons r rs ih =>
    intro s h
    exact ih _ (main_handleClient_stays_broken c s r h)

theorem main_stopRelays_safe (c : Config) (w : String) (s : State) (h : Safe c s) :
    Safe c (Main.stopRelays c w s) := by
  rcases c with ⟨al, ba⟩
  rcases s with ⟨u, d, g, tr⟩
  unfold Main.stopRelays
  split_ifs <;> cases al <;> cases u <;> cases d <;>
    simp_all [Safe, traceSafe, Main.relayWrite, Main.RELAY_ON, Main.RELAY_OFF, digitalWrite,
      bothOn, energized]

theorem main_up_on_safe (c : Config) (s : State) (h : Safe c s)
    (hd : energized c s.down = false) : Safe c (Main.relayWrite c Pin.PIN_RELAY_UP true s) := by
  rcases c with ⟨al, ba⟩
  rcases s with ⟨u, d, g, tr⟩
  cases al <;> cases u <;> cases d <;>
    simp_all [Safe, traceSafe, Main.relayWrite, Main.RELAY_ON, Main.RELAY_OFF, digitalWrite,
      bothOn, energized]

theorem main_down_on_safe (c : Config) (s : State) (h : Safe c s)
    (hu : energized c s.up = false) : Safe c (Main.relayWrite c Pin.PIN_RELAY_DOWN true s) := by
  rcases c with ⟨al, ba⟩
  rcases s with ⟨u, d, g, tr⟩
  cases al <;> cases u <;> cases d <;>
    simp_all [Safe, traceSafe, Main.relayWrite, Main.RELAY_ON, Main.RELAY_OFF, digitalWrite,
      bothOn, energized]

theorem main_up_on_clash (c : Config) (s : State) (hd : energized c s.down = true) :
    traceSafe c (Main.relayWrite c Pin.PIN_RELAY_UP true s).trace = false := by
  rcases c with ⟨al, ba⟩
  rcases s with ⟨u, d, g, tr⟩
  cases al <;> cases d <;>
    simp_all [traceSafe, Main.relayWrite, Main.RELAY_ON, Main.RELAY_OFF, digitalWrite,
      bothOn, energized]

theorem main_down_on_clash (c : Config) (s : State) (hu : energized c s.up = true) :
    traceSafe c (Main.relayWrite c Pin.PIN_RELAY_DOWN true s).trace = false := by
  rcases c with ⟨al, ba⟩
  rcases s with ⟨u, d, g, tr⟩
  cases al <;> cases u <;>
    simp_all [traceSafe, Main.relayWrite, Main.RELAY_ON, Main.RELAY_OFF, digitalWrite,
      bothOn, energized]

theorem main_step_clash (c : Config) (s : State) (r : Request) (h : clash c s r = true) :
    traceSafe c (Main.handleClient c s r).1.trace = false := by
  simp only [clash, Bool.and_eq_true, Bool.or_eq_true, decide_eq_true_eq] at h
  obtain ⟨⟨ha, hm⟩, hc⟩ := h
  have hp := checkAuth_pass c r ha
  rcases hc with ⟨hu, he⟩ | ⟨hu, he⟩
  · have hs : (Main.handleClient c s r).1 = Main.relayWrite c Pin.PIN_RELAY_UP true s := by
      simp [Main.handleClient, hu, hm, Main.handleUp, hp]
    rw [hs]
    exact main_up_on_clash c s he
  · have hs : (Main.handleClient c s r).1 = Main.relayWrite c Pin.PIN_RELAY_DOWN true s := by
      simp [Main.handleClient, hu, hm, Main.handleDown, hp]
    rw [hs]
    exact main_down_on_clash c s he

theorem main_step_no_clash (c : Config) (s : State) (r : Request) (h : Safe c s)
    (hc : clash c s r = false) : Safe c (Main.handleClient c s r).1 := by
  unfold Main.handleClient
  split_ifs with h1 h2 h3 h4 h5
  · dsimp only [Main.handleHealth]; split_ifs <;> exact h
  · dsimp only [Main.handleState]; split_ifs <;> exact h
  · dsimp only [Main.handleUp]; split_ifs with ha
    · exact h
    · refine main_up_on_safe c s h ?_
      simp [clash, h3.1, h3.2] at hc
      have ha2 : (checkAuth c r).1 = true := by simpa using ha
      cases he : energized c s.down
      · rfl
      · exact absurd (hc ha2) (by simp [he])
  · dsimp only [Main.handleDown]; split_ifs with ha
    · exact h
    · refine main_down_on_safe c s h ?_
      simp [clash, h4.1, h4.2] at hc
      have ha2 : (checkAuth c r).1 = true := by simpa using ha
      cases he : energized c s.up
      · rfl
      · exact absurd (hc ha2) (by simp [he])
  · dsimp only [Main.handleStop]; split_ifs
    · exact h
    · exact main_stopRelays_safe c _ s h
  · dsimp only [handleNotFound]; split_ifs <;> exact h

theorem main_run_safe_iff (c : Config) (rs : List Request) :
    ∀ s : State, Safe c s →
      ((traceSafe c (Main.run c s rs).trace = true ↔ runClash c s rs = false) ∧
       (runClash c s rs = false → Safe c (Main.run c s rs))) := by
  induction rs with
  | nil =>
    intro s h
    exact ⟨⟨fun _ => rfl, fun _ => h.1⟩, fun _ => h⟩
  | cons r rs ih =>
    intro s h
    cases hc : clash c s r
    · have hs := main_step_no_clash c s r h hc
      have hi := ih _ hs
      have hr : runClash c s (r :: rs) = runClash c (Main.handleClient c s r).1 rs := by
        simp [runClash, hc]
      rw [hr]
      exact hi
    · have hu := main_run_stays_broken c rs _ (main_step_clash c s r hc)
      have hr : runClash c s (r :: rs) = true := by
        simp [runClash, hc]
      have hrun : Main.run c s (r :: rs) = Main.run c (Main.handleClient c s r).1 rs := rfl
      rw [hr, hrun, hu]
      simp

end MainClash

/-- C1 (amended). In main.cpp, from power-on with any pin levels, after
`setup()` and any finite sequence of requests served one at a time: every pair
of pin levels recorded right after an individual `digitalWrite` has at most one
channel energized if and only if no request clashes, that is, no `POST /up`
passing `checkAuth()` is handled while Down is energized and no `POST /down`
passing `checkAuth()` is handled while Up is energized; and when no request
clashes the final levels have at most one channel energized too. -/
theorem main_never_both_iff_no_clash (c : Config) (up down : Level) (rs : List Request) :
    (traceSafe c (Main.run c (Main.setup c (powerOn up down)) rs).trace = true ↔
      runClash c (Main.setup c (powerOn up down)) rs = false) ∧
    (runClash c (Main.setup c (powerOn up down)) rs = false →
      bothOn c ((Main.run c (Main.setup c (powerOn up down)) rs).up,
        (Main.run c (Main.setup c (powerOn up down)) rs).down) = false) := by
  have hs : Safe c (Main.setup c (powerOn up down)) :=
    ⟨(main_setup_idle c up down).1.1, upIdle_bothOn c _ (main_setup_idle c up down).1⟩
  have h := main_run_safe_iff c rs _ hs
  exact ⟨h.1, fun hc => (h.2 hc).2⟩

/-- Witness for C1 (amended): `POST /up`, `POST /stop`, `POST /down` contains
both commands and no request clashes, so both channels are never energized
together; `POST /up`, `POST /down` clashes. -/
theorem main_never_both_iff_no_clash_witness :
    runClash shipped (Main.setup shipped (powerOn Level.LOW Level.LOW))
      [postUp, postStop [], postDown] = false ∧
    traceSafe shipped (Main.run shipped (Main.setup shipped (powerOn Level.LOW Level.LOW))
      [postUp, postStop [], postDown]).trace = true ∧
    bothOn shipped ((Main.run shipped (Main.setup shipped (powerOn Level.LOW Level.LOW))
        [postUp, postStop [], postDown]).up,
      (Main.run shipped (Main.setup shipped (powerOn Level.LOW Level.LOW))
        [postUp, postStop [], postDown]).down) = false ∧
    runClash shipped (Main.setup shipped (powerOn Level.LOW Level.LOW)) [postUp, postDown]
      = true :=
  ⟨by decide,
   (main_never_both_iff_no_clash shipped Level.LOW Level.LOW
      [postUp, postStop [], postDown]).1.2 (by decide),
   (main_never_both_iff_no_clash shipped Level.LOW Level.LOW
      [postUp, postStop [], postDown]).2 (by decide),
   by decide⟩

section Moves

theorem main_relayIsOn_eq_energized (c : Config) (pin : Pin) (s : State) :
    Main.relayIsOn c pin s = energized c (digitalRead pin s) := by
  rcases c with ⟨al, ba⟩
  cases al <;> simp [Main.relayIsOn, Main.RELAY_ON, energized]

theorem energized_RELAY_OFF (c : Config) : energized c (Main.RELAY_OFF c) = false := by
  rcases c with ⟨al, ba⟩
  cases al <;> simp [Main.RELAY_OFF, energized]

theorem energized_RELAY_ON (c : Config) : energized c (Main.RELAY_ON c) = true := by
  rcases c with ⟨al, ba⟩
  cases al <;> simp [Main.RELAY_ON, energized]

theorem server_relayWrite_eq_main (c : Config) (pin : Pin) (b : Bool) (s : State) :
    Server.relayWrite c pin b s = Main.relayWrite c pin b s := by
  rcases c with ⟨al, ba⟩
  cases al <;> cases b <;> simp [Server.relayWrite, Main.relayWrite, Main.RELAY_ON, Main.RELAY_OFF]

theorem server_moveUp_eq_main (c : Config) (s : State) : Server.moveUp c s = Main.moveUp c s := by
  simp [Server.moveUp, Main.moveUp, server_relayWrite_eq_main]

theorem server_moveDown_eq_main (c : Config) (s : State) :
    Server.moveDown c s = Main.moveDown c s := by
  simp [Server.moveDown, Main.moveDown, server_relayWrite_eq_main]

theorem server_stopAll_eq_main (c : Config) (s : State) :
    Server.stopAll c s = Main.stopAll c s := by
  simp [Server.stopAll, Main.stopAll, server_relayWrite_eq_main]

theorem main_moveUp_spec (c : Config) (s : State) :
    energized c (Main.moveUp c s).up = true ∧ energized c (Main.moveUp c s).down = false ∧
    (Main.moveUp c s).g_state = MotionState.MovingUp ∧
    traceSafe c (newPoints s (Main.moveUp c s)) = true := by
  rcases c with ⟨al, ba⟩
  rcases s with ⟨u, d, g, tr⟩
  cases al <;> cases u <;> cases d <;>
    simp [Main.moveUp, Main.relayWrite, Main.RELAY_ON, Main.RELAY_OFF, digitalWrite, energized,
      newPoints, traceSafe, bothOn]

theorem main_moveDown_spec (c : Config) (s : State) :
    energized c (Main.moveDown c s).down = true ∧ energized c (Main.moveDown c s).up = false ∧
    (Main.moveDown c s).g_state = MotionState.MovingDown ∧
    traceSafe c (newPoints s (Main.moveDown c s)) = true := by
  rcases c with ⟨al, ba⟩
  rcases s with ⟨u, d, g, tr⟩
  cases al <;> cases u <;> cases d <;>
    simp [Main.moveDown, Main.relayWrite, Main.RELAY_ON, Main.RELAY_OFF, digitalWrite, energized,
      newPoints, traceSafe, bothOn]

end Moves

/-- C3. In both source files, for every polarity, every prior pin levels
(both channels energized included) and every prior `g_state`: `moveUp()` ends
with Up energized, Down de-energized and `g_state = MovingUp`; `moveDown()`
ends with Down energized, Up de-energized and `g_state = MovingDown`;
`moveUp()` right after `moveDown()` leaves Up energized and Down de-energized;
and none of the points recorded after the individual writes of either function
has both channels energized (this holds for every prior state, in particular
when the prior state has at most one channel energized). -/
theorem move_overrides (c : Config) (s : State) :
    (energized c (Server.moveUp c s).up = true ∧ energized c (Server.moveUp c s).down = false ∧
      (Server.moveUp c s).g_state = MotionState.MovingUp ∧
      energized c (Server.moveDown c s).down = true ∧
      energized c (Server.moveDown c s).up = false ∧
      (Server.moveDown c s).g_state = MotionState.MovingDown ∧
      energized c (Server.moveUp c (Server.moveDown c s)).up = true ∧
      energized c (Server.moveUp c (Server.moveDown c s)).down = false ∧
      traceSafe c (newPoints s (Server.moveUp c s)) = true ∧
      traceSafe c (newPoints s (Server.moveDown c s)) = true) ∧
    (energized c (Main.moveUp c s).up = true ∧ energized c (Main.moveUp c s).down = false ∧
      (Main.moveUp c s).g_state = MotionState.MovingUp ∧
      energized c (Main.moveDown c s).down = true ∧
      energized c (Main.moveDown c s).up = false ∧
      (Main.moveDown c s).g_state = MotionState.MovingDown ∧
      energized c (Main.moveUp c (Main.moveDown c s)).up = true ∧
      energized c (Main.moveUp c (Main.moveDown c s)).down = false ∧
      traceSafe c (newPoints s (Main.moveUp c s)) = true ∧
      traceSafe c (newPoints s (Main.moveDown c s)) = true) := by
  have hu := main_moveUp_spec c s
  have hd := main_moveDown_spec c s
  have hud := main_moveUp_spec c (Main.moveDown c s)
  simp only [server_moveUp_eq_main, server_moveDown_eq_main]
  exact ⟨⟨hu.1, hu.2.1, hu.2.2.1, hd.1, hd.2.1, hd.2.2.1, hud.1, hud.2.1, hu.2.2.2, hd.2.2.2⟩,
    ⟨hu.1, hu.2.1, hu.2.2.1, hd.1, hd.2.1, hd.2.2.1, hud.1, hud.2.1, hu.2.2.2, hd.2.2.2⟩⟩

section Stop

theorem serverArg_absent (r : Request) (name : String) (h : ∀ kv ∈ r.args, kv.1 ≠ name) :
    serverArg r name = "" := by
  have hf : r.args.find? (fun kv => kv.1 == name) = none := by
    rw [List.find?_eq_none]
    intro kv hkv
    simpa using h kv hkv
  simp [serverArg, hf]

theorem main_handleStop_pass (c : Config) (r : Request) (s : State)
    (h : (checkAuth c r).1 = true) :
    Main.handleStop c r s = (Main.stopRelays c (serverArg r "relay") s,
      [sendJson 200 ("\x7b\"ok\":true,\"action\":\"stop\",\"which\":\"" ++
        serverArg r "relay" ++ "\"\x7d")]) := by
  simp [Main.handleStop, checkAuth_pass c r h]

theorem main_stopRelays_up (c : Config) (s : State) :
    (Main.stopRelays c "up" s).up = Main.RELAY_OFF c ∧ (Main.stopRelays c "up" s).down = s.down := by
  simp [Main.stopRelays, Main.relayWrite, digitalWrite]

theorem main_stopRelays_down (c : Config) (s : State) :
    (Main.stopRelays c "down" s).down = Main.RELAY_OFF c ∧
      (Main.stopRelays c "down" s).up = s.up := by
  simp [Main.stopRelays, Main.relayWrite, digitalWrite]

theorem main_stopRelays_else (c : Config) (w : String) (s : State)
    (h1 : w ≠ "up") (h2 : w ≠ "down") :
    (Main.stopRelays c w s).up = Main.RELAY_OFF c ∧
      (Main.stopRelays c w s).down = Main.RELAY_OFF c ∧
      (Main.stopRelays c w s).g_state = s.g_state := by
  simp [Main.stopRelays, Main.relayWrite, digitalWrite, h1, h2]

end Stop

/-- C4. In main.cpp, for every polarity and every prior state, the `POST /stop`
handler (credential check passed) with `relay=up` de-energizes Up and leaves
the level of Down exactly as it was; with `relay=down` it de-energizes Down and
leaves the level of Up exactly as it was; with `relay=both` or with no `relay`
parameter it de-energizes both channels. -/
theorem main_stop_selector (c : Config) (r : Request) (s : State)
    (ha : (checkAuth c r).1 = true) :
    (serverArg r "relay" = "up" →
      energized c (Main.handleStop c r s).1.up = false ∧
      (Main.handleStop c r s).1.down = s.down) ∧
    (serverArg r "relay" = "down" →
      energized c (Main.handleStop c r s).1.down = false ∧
      (Main.handleStop c r s).1.up = s.up) ∧
    ((serverArg r "relay" = "both" ∨ ∀ kv ∈ r.args, kv.1 ≠ "relay") →
      energized c (Main.handleStop c r s).1.up = false ∧
      energized c (Main.handleStop c r s).1.down = false) := by
  rw [main_handleStop_pass c r s ha]
  refine ⟨fun h => ?_, fun h => ?_, fun h => ?_⟩
  · simp only [h]
    exact ⟨by rw [(main_stopRelays_up c s).1]; exact energized_RELAY_OFF c,
      (main_stopRelays_up c s).2⟩
  · simp only [h]
    exact ⟨by rw [(main_stopRelays_down c s).1]; exact energized_RELAY_OFF c,
      (main_stopRelays_down c s).2⟩
  · have hw : serverArg r "relay" ≠ "up" ∧ serverArg r "relay" ≠ "down" := by
      rcases h with h | h
      · rw [h]; exact ⟨by decide, by decide⟩
      · rw [serverArg_absent r "relay" h]; exact ⟨by decide, by decide⟩
    have he := main_stopRelays_else c (serverArg r "relay") s hw.1 hw.2
    exact ⟨by simp only [he.1]; exact energized_RELAY_OFF c,
      by simp only [he.2.1]; exact energized_RELAY_OFF c⟩

/-- Witness for C4: from both channels energized, `POST /stop?relay=up`
de-energizes Up and keeps Down at its level. -/
theorem main_stop_selector_witness :
    (checkAuth shipped (postStop [("relay", "up")])).1 = true ∧
    serverArg (postStop [("relay", "up")]) "relay" = "up" ∧
    energized shipped (Main.handleStop shipped (postStop [("relay", "up")]) bothEnergized).1.up
      = false ∧
    (Main.handleStop shipped (postStop [("relay", "up")]) bothEnergized).1.down
      = bothEnergized.down :=
  ⟨rfl, rfl,
   (main_stop_selector shipped (postStop [("relay", "up")]) bothEnergized rfl).1 rfl⟩

/-- C5 (as stated, refuted). In heating-server.cpp, with Down energized (boot,
then `moveDown()`), `POST /stop?relay=up` does not leave Down at its prior
level: Down was energized before and is de-energized afterwards. -/
theorem server_stop_ignores_selector :
    serverArg (postStop [("relay", "up")]) "relay" = "up" ∧
    energized shipped serverMovingDown.down = true ∧
    energized shipped
      (Server.handleStop shipped (postStop [("relay", "up")]) serverMovingDown).1.down = false ∧
    (Server.handleStop shipped (postStop [("relay", "up")]) serverMovingDown).1.down
      ≠ serverMovingDown.down := by
  refine ⟨rfl, rfl, rfl, ?_⟩
  decide

/-- C5 (amended). In heating-server.cpp, for every polarity, every prior state
and every request (whatever its `relay` query value), the `POST /stop`
handler (credential check passed) runs `stopAll()`: both channels end
de-energized and `g_state` is `Stopped`. -/
theorem server_stop_always_both (c : Config) (r : Request) (s : State)
    (ha : (checkAuth c r).1 = true) :
    (Server.handleStop c r s).1 = Server.stopAll c s ∧
    energized c (Server.handleStop c r s).1.up = false ∧
    energized c (Server.handleStop c r s).1.down = false ∧
    (Server.handleStop c r s).1.g_state = MotionState.Stopped := by
  have h1 : (Server.handleStop c r s).1 = Server.stopAll c s := by
    simp [Server.handleStop, checkAuth_pass c r ha]
  rw [h1]
  rcases c with ⟨al, ba⟩
  cases al <;>
    simp [Server.stopAll, Server.relayWrite, digitalWrite, energized]

/-- Witness for C5 (amended): `POST /stop?relay=up` with Down energized. -/
theorem server_stop_always_both_witness :
    (checkAuth shipped (postStop [("relay", "up")])).1 = true ∧
    (Server.handleStop shipped (postStop [("relay", "up")]) serverMovingDown).1
      = Server.stopAll shipped serverMovingDown ∧
    energized shipped
      (Server.handleStop shipped (postStop [("relay", "up")]) serverMovingDown).1.up = false ∧
    energized shipped
      (Server.handleStop shipped (postStop [("relay", "up")]) serverMovingDown).1.down = false ∧
    (Server.handleStop shipped (postStop [("relay", "up")]) serverMovingDown).1.g_state
      = MotionState.Stopped :=
  ⟨rfl, server_stop_always_both shipped (postStop [("relay", "up")]) serverMovingDown rfl⟩

/-- C6. In main.cpp, for every polarity, every prior state and every request
whose `relay` value is neither exactly "up" nor exactly "down" (credential
check passed), the `POST /stop` handler answers 200 and ends with the same
state as for `relay=both`: both channels de-energized. -/
theorem main_stop_unrecognised_selector (c : Config) (r : Request) (s : State)
    (ha : (checkAuth c r).1 = true)
    (h1 : serverArg r "relay" ≠ "up") (h2 : serverArg r "relay" ≠ "down") :
    (Main.handleStop c r s).2.map (fun x => x.code) = [200] ∧
    (Main.handleStop c r s).1
      = (Main.handleStop c { r with args := [("relay", "both")] } s).1 ∧
    energized c (Main.handleStop c r s).1.up = false ∧
    energized c (Main.handleStop c r s).1.down = false := by
  have hb : (checkAuth c { r with args := [("relay", "both")] }).1 = true := ha
  rw [main_handleStop_pass c r s ha, main_handleStop_pass c _ s hb]
  have he := main_stopRelays_else c (serverArg r "relay") s h1 h2
  refine ⟨by simp [sendJson], ?_, ?_, ?_⟩
  · have hs : serverArg { r with args := [("relay", "both")] } "relay" = "both" := rfl
    rw [hs]
    simp [Main.stopRelays, h1, h2]
  · simp only [he.1]; exact energized_RELAY_OFF c
  · simp only [he.2.1]; exact energized_RELAY_OFF c

/-- Witness for C6: `POST /stop?relay=UP` (upper case) from both channels
energized. -/
theorem main_stop_unrecognised_selector_witness :
    (checkAuth shipped (postStop [("relay", "UP")])).1 = true ∧
    serverArg (postStop [("relay", "UP")]) "relay" ≠ "up" ∧
    serverArg (postStop [("relay", "UP")]) "relay" ≠ "down" ∧
    (Main.handleStop shipped (postStop [("relay", "UP")]) bothEnergized).2.map
      (fun x => x.code) = [200] ∧
    (Main.handleStop shipped (postStop [("relay", "UP")]) bothEnergized).1
      = (Main.handleStop shipped
          { postStop [("relay", "UP")] with args := [("relay", "both")] } bothEnergized).1 ∧
    energized shipped (Main.handleStop shipped (postStop [("relay", "UP")]) bothEnergized).1.up
      = false ∧
    energized shipped (Main.handleStop shipped (postStop [("relay", "UP")]) bothEnergized).1.down
      = false :=
  ⟨rfl, by decide, by decide,
   main_stop_unrecognised_selector shipped (postStop [("relay", "UP")]) bothEnergized rfl
     (by decide) (by decide)⟩

section Auth

theorem checkAuth_fail (c : Config) (r : Request) (h1 : c.USE_BASIC_AUTH = true)
    (h2 : r.authenticated = false) : checkAuth c r = (false, [requestAuthentication]) := by
  simp [checkAuth, h1, h2]

theorem checkAuth_ok (c : Config) (r : Request)
    (h : c.USE_BASIC_AUTH = false ∨ r.authenticated = true) : checkAuth c r = (true, []) := by
  rcases h with h | h <;> simp [checkAuth, h]

theorem server_handleClient_denied (c : Config) (r : Request) (s : State)
    (h : checkAuth c r = (false, [requestAuthentication])) (hr : isRegistered r = true) :
    Server.handleClient c s r = (s, [requestAuthentication]) := by
  have hr2 := of_decide_eq_true hr
  unfold Server.handleClient
  split_ifs
  · simp [Server.handleHealth, h]
  · simp [Server.handleState, h]
  · simp [Server.handleUp, h]
  · simp [Server.handleDown, h]
  · simp [Server.handleStop, h]
  · tauto

theorem main_handleClient_denied (c : Config) (r : Request) (s : State)
    (h : checkAuth c r = (false, [requestAuthentication])) (hr : isRegistered r = true) :
    Main.handleClient c s r = (s, [requestAuthentication]) := by
  have hr2 := of_decide_eq_true hr
  unfold Main.handleClient
  split_ifs
  · simp [Main.handleHealth, h]
  · simp [Main.handleState, h]
  · simp [Main.handleUp, h]
  · simp [Main.handleDown, h]
  · simp [Main.handleStop, h]
  · tauto

end Auth

/-- C7. In both source files: when `USE_BASIC_AUTH` is set and
`server.authenticate` fails, then for each of the five registered routes and
every prior state the handler leaves the whole state (pin levels, `g_state`,
and no pin write recorded) unchanged and emits exactly one response, the
challenge of `requestAuthentication()`, which is a 401 with a
`WWW-Authenticate` header and not a 200. When `USE_BASIC_AUTH` is off or
`server.authenticate` succeeds, `checkAuth()` returns true without emitting
anything and each handler runs its operation and answers 200. -/
theorem auth_gate (c : Config) (r : Request) (s : State) :
    (c.USE_BASIC_AUTH = true → r.authenticated = false → isRegistered r = true →
      Server.handleClient c s r = (s, [requestAuthentication]) ∧
      Main.handleClient c s r = (s, [requestAuthentication])) ∧
    requestAuthentication.code = 401 ∧ requestAuthentication.code ≠ 200 ∧
    requestAuthentication.headers.map Prod.fst = ["WWW-Authenticate"] ∧
    ((c.USE_BASIC_AUTH = false ∨ r.authenticated = true) →
      checkAuth c r = (true, []) ∧
      Server.handleHealth c r s = (s, [sendJson 200 "\x7b\"ok\":true\x7d"]) ∧
      Server.handleState c r s =
        (s, [sendJson 200 ("\x7b\"state\":\"" ++ stateToString s.g_state ++ "\"\x7d")]) ∧
      Server.handleUp c r s =
        (Server.moveUp c s, [sendJson 200 "\x7b\"ok\":true,\"action\":\"up\"\x7d"]) ∧
      Server.handleDown c r s =
        (Server.moveDown c s, [sendJson 200 "\x7b\"ok\":true,\"action\":\"down\"\x7d"]) ∧
      Server.handleStop c r s =
        (Server.stopAll c s, [sendJson 200 "\x7b\"ok\":true,\"action\":\"stop\"\x7d"]) ∧
      Main.handleHealth c r s = (s, [sendJson 200 "\x7b\"ok\":true\x7d"]) ∧
      Main.handleState c r s =
        (s, [sendJson 200 ("\x7b\"up\":" ++
          (if Main.relayIsOn c Pin.PIN_RELAY_UP s then "true" else "false") ++ ",\"down\":" ++
          (if Main.relayIsOn c Pin.PIN_RELAY_DOWN s then "true" else "false") ++ "\x7d")]) ∧
      Main.handleUp c r s =
        (Main.relayWrite c Pin.PIN_RELAY_UP true s,
          [sendJson 200 "\x7b\"ok\":true,\"action\":\"up_on\"\x7d"]) ∧
      Main.handleDown c r s =
        (Main.relayWrite c Pin.PIN_RELAY_DOWN true s,
          [sendJson 200 "\x7b\"ok\":true,\"action\":\"down_on\"\x7d"]) ∧
      Main.handleStop c r s =
        (Main.stopRelays c (serverArg r "relay") s,
          [sendJson 200 ("\x7b\"ok\":true,\"action\":\"stop\",\"which\":\"" ++
            serverArg r "relay" ++ "\"\x7d")])) := by
  refine ⟨fun h1 h2 hr => ?_, rfl, by decide, rfl, fun h => ?_⟩
  · have hc := checkAuth_fail c r h1 h2
    exact ⟨server_handleClient_denied c r s hc hr, main_handleClient_denied c r s hc hr⟩
  · have hc := checkAuth_ok c r h
    simp [hc, Server.handleHealth, Server.handleState, Server.handleUp, Server.handleDown,
      Server.handleStop, Main.handleHealth, Main.handleState, Main.handleUp, Main.handleDown,
      Main.handleStop]

/-- Witness for C7: with authentication enabled, an unauthenticated
`POST /up` while Down is energized changes nothing and gets the challenge. -/
theorem auth_gate_witness :
    isRegistered postUp = true ∧
    Server.handleClient { RELAY_ACTIVE_LOW := true, USE_BASIC_AUTH := true } serverMovingDown postUp
      = (serverMovingDown, [requestAuthentication]) ∧
    Main.handleClient { RELAY_ACTIVE_LOW := true, USE_BASIC_AUTH := true } serverMovingDown postUp
      = (serverMovingDown, [requestAuthentication]) ∧
    checkAuth shipped postUp = (true, []) :=
  ⟨by decide,
   ((auth_gate { RELAY_ACTIVE_LOW := true, USE_BASIC_AUTH := true } postUp serverMovingDown).1
      rfl rfl (by decide)).1,
   ((auth_gate { RELAY_ACTIVE_LOW := true, USE_BASIC_AUTH := true } postUp serverMovingDown).1
      rfl rfl (by decide)).2,
   ((auth_gate shipped postUp serverMovingDown).2.2.2.2 (Or.inl rfl)).1⟩

/-- C8. In both source files, for either polarity and every state before
boot (any pin levels), after the relay part of `setup()` both channels read as
de-energized through the polarity constant (`digitalRead(pin) == RELAY_ON` is
false for both pins) and `g_state` is `Stopped`. -/
theorem boot_de_energized (c : Config) (s : State) :
    (Main.relayIsOn c Pin.PIN_RELAY_UP (Main.setup c s) = false ∧
      Main.relayIsOn c Pin.PIN_RELAY_DOWN (Main.setup c s) = false ∧
      (Main.setup c s).g_state = MotionState.Stopped) ∧
    (Main.relayIsOn c Pin.PIN_RELAY_UP (Server.setup c s) = false ∧
      Main.relayIsOn c Pin.PIN_RELAY_DOWN (Server.setup c s) = false ∧
      energized c (Server.setup c s).up = false ∧
      energized c (Server.setup c s).down = false ∧
      (Server.setup c s).g_state = MotionState.Stopped) := by
  rcases c with ⟨al, ba⟩
  cases al <;>
    simp [Main.relayIsOn, Main.setup, Main.stopAll, Main.relayWrite, Main.RELAY_ON,
      Main.RELAY_OFF, Server.setup, Server.stopAll, Server.relayWrite, digitalWrite, digitalRead,
      pinModeOutput, energized]

section Idempotence

theorem main_stopRelays_twice (c : Config) (w : String) (s : State) :
    (Main.stopRelays c w (Main.stopRelays c w s)).up = (Main.stopRelays c w s).up ∧
    (Main.stopRelays c w (Main.stopRelays c w s)).down = (Main.stopRelays c w s).down ∧
    (Main.stopRelays c w (Main.stopRelays c w s)).g_state = (Main.stopRelays c w s).g_state := by
  unfold Main.stopRelays
  split_ifs <;> simp [Main.relayWrite, digitalWrite]

end Idempotence

/-- C9. For every polarity and every prior state, `stopAll()` followed by
`stopAll()` gives the same pin levels and the same `g_state` as a single
`stopAll()`, in both source files; and in main.cpp handling the same
`POST /stop` request (any `relay` value, credentials accepted or not) twice
gives the same pin levels and `g_state` as handling it once. -/
theorem stop_idempotent (c : Config) (r : Request) (s : State) :
    ((Server.stopAll c (Server.stopAll c s)).up = (Server.stopAll c s).up ∧
      (Server.stopAll c (Server.stopAll c s)).down = (Server.stopAll c s).down ∧
      (Server.stopAll c (Server.stopAll c s)).g_state = (Server.stopAll c s).g_state) ∧
    ((Main.stopAll c (Main.stopAll c s)).up = (Main.stopAll c s).up ∧
      (Main.stopAll c (Main.stopAll c s)).down = (Main.stopAll c s).down ∧
      (Main.stopAll c (Main.stopAll c s)).g_state = (Main.stopAll c s).g_state) ∧
    ((Main.handleStop c r (Main.handleStop c r s).1).1.up = (Main.handleStop c r s).1.up ∧
      (Main.handleStop c r (Main.handleStop c r s).1).1.down = (Main.handleStop c r s).1.down ∧
      (Main.handleStop c r (Main.handleStop c r s).1).1.g_state
        = (Main.handleStop c r s).1.g_state) := by
  refine ⟨?_, ?_, ?_⟩
  · rcases c with ⟨al, ba⟩
    cases al <;> simp [Server.stopAll, Server.relayWrite, digitalWrite]
  · simp [Main.stopAll, Main.relayWrite, digitalWrite]
  · by_cases h : (checkAuth c r).1 = true
    · simp only [main_handleStop_pass c r _ h]
      exact main_stopRelays_twice c _ s
    · have hs : ∀ t : State, (Main.handleStop c r t).1 = t := by
        intro t
        simp [Main.handleStop, h]
      simp [hs]

/-- C10 (as stated, refuted). In main.cpp with the shipped configuration, the
bodies answered to `POST /up`, `POST /down` and `POST /stop` are not the bodies
with action "up", "down" and the two-member "stop" object. -/
theorem main_action_bodies_differ :
    (Main.handleClient shipped bothEnergized postUp).2.map (fun x => (x.code, x.body))
      ≠ [(200, "\x7b\"ok\":true,\"action\":\"up\"\x7d")] ∧
    (Main.handleClient shipped bothEnergized postDown).2.map (fun x => (x.code, x.body))
      ≠ [(200, "\x7b\"ok\":true,\"action\":\"down\"\x7d")] ∧
    (Main.handleClient shipped bothEnergized (postStop [])).2.map (fun x => (x.code, x.body))
      ≠ [(200, "\x7b\"ok\":true,\"action\":\"stop\"\x7d")] := by
  refine ⟨?_, ?_, ?_⟩ <;> decide

/-- C10 (amended). In main.cpp, for every polarity, every prior state and every
`POST` request that passes the credential check: `/up` answers exactly one
response, 200 with body `{"ok":true,"action":"up_on"}`; `/down` answers 200
with body `{"ok":true,"action":"down_on"}`; `/stop` answers 200 with body
`{"ok":true,"action":"stop","which":"<relay>"}` where `<relay>` is the raw
value of the `relay` query parameter (empty when absent). -/
theorem main_action_bodies (c : Config) (r : Request) (s : State)
    (ha : (checkAuth c r).1 = true) (hm : r.method = HTTPMethod.HTTP_POST) :
    (r.uri = "/up" →
      (Main.handleClient c s r).2.map (fun x => (x.code, x.body))
        = [(200, "\x7b\"ok\":true,\"action\":\"up_on\"\x7d")]) ∧
    (r.uri = "/down" →
      (Main.handleClient c s r).2.map (fun x => (x.code, x.body))
        = [(200, "\x7b\"ok\":true,\"action\":\"down_on\"\x7d")]) ∧
    (r.uri = "/stop" →
      (Main.handleClient c s r).2.map (fun x => (x.code, x.body))
        = [(200, "\x7b\"ok\":true,\"action\":\"stop\",\"which\":\"" ++
            serverArg r "relay" ++ "\"\x7d")]) := by
  have hc := checkAuth_pass c r ha
  refine ⟨fun h => ?_, fun h => ?_, fun h => ?_⟩
  · simp [Main.handleClient, h, hm, Main.handleUp, hc, sendJson]
  · simp [Main.handleClient, h, hm, Main.handleDown, hc, sendJson]
  · simp [Main.handleClient, h, hm, Main.handleStop, hc, sendJson]

/-- Witness for C10 (amended): `POST /stop?relay=down`. -/
theorem main_action_bodies_witness :
    (checkAuth shipped (postStop [("relay", "down")])).1 = true ∧
    (postStop [("relay", "down")]).method = HTTPMethod.HTTP_POST ∧
    (postStop [("relay", "down")]).uri = "/stop" ∧
    (Main.handleClient shipped bothEnergized (postStop [("relay", "down")])).2.map
        (fun x => (x.code, x.body))
      = [(200, "\x7b\"ok\":true,\"action\":\"stop\",\"which\":\"" ++
          serverArg (postStop [("relay", "down")]) "relay" ++ "\"\x7d")] :=
  ⟨rfl, rfl, rfl,
   (main_action_bodies shipped (postStop [("relay", "down")]) bothEnergized rfl rfl).2.2 rfl⟩

/-- C11. In heating-server.cpp, for either polarity and any pin levels before
boot, starting from the booted `Stopped` state: `POST /up` answers 200 with
body `{"ok":true,"action":"up"}` and leaves Up energized and Down not; a
following `POST /down` leaves Up de-energized and Down energized; a following
`POST /stop` leaves both de-energized; a following `GET /state` answers 200
with body `{"state":"stopped"}`. -/
theorem server_scenario (c : Config) (up down : Level) :
    (Server.setup c (powerOn up down)).g_state = MotionState.Stopped ∧
    (serverScenarioUp c up down).2.map (fun x => (x.code, x.body))
      = [(200, "\x7b\"ok\":true,\"action\":\"up\"\x7d")] ∧
    energized c (serverScenarioUp c up down).1.up = true ∧
    energized c (serverScenarioUp c up down).1.down = false ∧
    energized c (serverScenarioDown c up down).1.up = false ∧
    energized c (serverScenarioDown c up down).1.down = true ∧
    energized c (serverScenarioStop c up down).1.up = false ∧
    energized c (serverScenarioStop c up down).1.down = false ∧
    (serverScenarioState c up down).2.map (fun x => (x.code, x.body))
      = [(200, "\x7b\"state\":\"stopped\"\x7d")] := by
  rcases c with ⟨al, ba⟩
  cases al <;> cases ba <;> cases up <;> cases down <;>
    (refine ⟨rfl, rfl, rfl, rfl, rfl, rfl, rfl, rfl, rfl⟩)

section NotFound

theorem not_registered_cases (r : Request) (h : isRegistered r = false) :
    ¬(r.uri = "/health" ∧ r.method = HTTPMethod.HTTP_GET) ∧
    ¬(r.uri = "/state" ∧ r.method = HTTPMethod.HTTP_GET) ∧
    ¬(r.uri = "/up" ∧ r.method = HTTPMethod.HTTP_POST) ∧
    ¬(r.uri = "/down" ∧ r.method = HTTPMethod.HTTP_POST) ∧
    ¬(r.uri = "/stop" ∧ r.method = HTTPMethod.HTTP_POST) := by
  have h2 := of_decide_eq_false h
  simp only [not_or] at h2
  exact h2

theorem server_handleClient_unregistered (c : Config) (s : State) (r : Request)
    (h : isRegistered r = false) : Server.handleClient c s r = handleNotFound r s := by
  obtain ⟨h1, h2, h3, h4, h5⟩ := not_registered_cases r h
  unfold Server.handleClient
  rw [if_neg h1, if_neg h2, if_neg h3, if_neg h4, if_neg h5]

theorem main_handleClient_unregistered (c : Config) (s : State) (r : Request)
    (h : isRegistered r = false) : Main.handleClient c s r = handleNotFound r s := by
  obtain ⟨h1, h2, h3, h4, h5⟩ := not_registered_cases r h
  unfold Main.handleClient
  rw [if_neg h1, if_neg h2, if_neg h3, if_neg h4, if_neg h5]

end NotFound

/-- C12. In both source files, for every request whose (path, method) pair is
not one of the five registered routes and every prior state: when the method
is OPTIONS (on any path, the registered paths included) the only response is
204 with an empty body; otherwise (unknown path, or registered path with
another method) the only response is 404 with body `{"error":"not_found"}`;
both responses carry exactly the three CORS headers
`Access-Control-Allow-Origin: *`,
`Access-Control-Allow-Methods: GET,POST,OPTIONS` and
`Access-Control-Allow-Headers: Content-Type, Authorization`, and the whole
state (pin levels, `g_state`, no pin write) is unchanged. -/
theorem unregistered_requests (c : Config) (s : State) (r : Request)
    (h : isRegistered r = false) :
    (r.method = HTTPMethod.HTTP_OPTIONS →
      Server.handleClient c s r = (s, [handleOptions]) ∧
      Main.handleClient c s r = (s, [handleOptions]) ∧
      (Server.handleClient c s r).2.map (fun x => (x.code, x.headers, x.body))
        = [(204, [("Access-Control-Allow-Origin", "*"),
            ("Access-Control-Allow-Methods", "GET,POST,OPTIONS"),
            ("Access-Control-Allow-Headers", "Content-Type, Authorization")], "")] ∧
      (Main.handleClient c s r).2.map (fun x => (x.code, x.headers, x.body))
        = [(204, [("Access-Control-Allow-Origin", "*"),
            ("Access-Control-Allow-Methods", "GET,POST,OPTIONS"),
            ("Access-Control-Allow-Headers", "Content-Type, Authorization")], "")]) ∧
    (r.method ≠ HTTPMethod.HTTP_OPTIONS →
      Server.handleClient c s r = (s, [sendJson 404 "\x7b\"error\":\"not_found\"\x7d"]) ∧
      Main.handleClient c s r = (s, [sendJson 404 "\x7b\"error\":\"not_found\"\x7d"]) ∧
      (Server.handleClient c s r).2.map (fun x => (x.code, x.headers, x.body))
        = [(404, [("Access-Control-Allow-Origin", "*"),
            ("Access-Control-Allow-Methods", "GET,POST,OPTIONS"),
            ("Access-Control-Allow-Headers", "Content-Type, Authorization")], "\x7b\"error\":\"not_found\"\x7d")] ∧
      (Main.handleClient c s r).2.map (fun x => (x.code, x.headers, x.body))
        = [(404, [("Access-Control-Allow-Origin", "*"),
            ("Access-Control-Allow-Methods", "GET,POST,OPTIONS"),
            ("Access-Control-Allow-Headers", "Content-Type, Authorization")], "\x7b\"error\":\"not_found\"\x7d")]) ∧
    (handleOptions.code = 204 ∧ handleOptions.body = "" ∧ handleOptions.contentType = none ∧
      handleOptions.headers = corsHeaders ∧ hasCors handleOptions = true) ∧
    ((sendJson 404 "\x7b\"error\":\"not_found\"\x7d").code = 404 ∧
      (sendJson 404 "\x7b\"error\":\"not_found\"\x7d").body = "\x7b\"error\":\"not_found\"\x7d" ∧
      (sendJson 404 "\x7b\"error\":\"not_found\"\x7d").headers = corsHeaders ∧
      hasCors (sendJson 404 "\x7b\"error\":\"not_found\"\x7d") = true) := by
  rw [server_handleClient_unregistered c s r h, main_handleClient_unregistered c s r h]
  refine ⟨fun hm => ?_, fun hm => ?_, ⟨rfl, rfl, rfl, rfl, by decide⟩, ⟨rfl, rfl, rfl, by decide⟩⟩
  · have hn : handleNotFound r s = (s, [handleOptions]) := by simp [handleNotFound, hm]
    rw [hn]
    exact ⟨rfl, rfl, rfl, rfl⟩
  · have hn : handleNotFound r s = (s, [sendJson 404 "\x7b\"error\":\"not_found\"\x7d"]) := by
      simp [handleNotFound, hm]
    rw [hn]
    exact ⟨rfl, rfl, rfl, rfl⟩

/-- Witness for C12: `GET /unknown` gets the 404, `OPTIONS /up` the 204, each
with the three CORS headers. -/
theorem unregistered_requests_witness :
    isRegistered (mkReq HTTPMethod.HTTP_GET "/unknown" [] false) = false ∧
    isRegistered (mkReq HTTPMethod.HTTP_OPTIONS "/up" [] false) = false ∧
    Main.handleClient shipped bothEnergized (mkReq HTTPMethod.HTTP_GET "/unknown" [] false)
      = (bothEnergized, [sendJson 404 "\x7b\"error\":\"not_found\"\x7d"]) ∧
    (Main.handleClient shipped bothEnergized
        (mkReq HTTPMethod.HTTP_GET "/unknown" [] false)).2.map
        (fun x => (x.code, x.headers, x.body))
      = [(404, [("Access-Control-Allow-Origin", "*"),
            ("Access-Control-Allow-Methods", "GET,POST,OPTIONS"),
            ("Access-Control-Allow-Headers", "Content-Type, Authorization")], "\x7b\"error\":\"not_found\"\x7d")] ∧
    Server.handleClient shipped bothEnergized (mkReq HTTPMethod.HTTP_OPTIONS "/up" [] false)
      = (bothEnergized, [handleOptions]) ∧
    (Server.handleClient shipped bothEnergized
        (mkReq HTTPMethod.HTTP_OPTIONS "/up" [] false)).2.map
        (fun x => (x.code, x.headers, x.body))
      = [(204, [("Access-Control-Allow-Origin", "*"),
            ("Access-Control-Allow-Methods", "GET,POST,OPTIONS"),
            ("Access-Control-Allow-Headers", "Content-Type, Authorization")], "")] :=
  ⟨by decide, by decide,
   ((unregistered_requests shipped bothEnergized (mkReq HTTPMethod.HTTP_GET "/unknown" [] false)
      (by decide)).2.1 (by decide)).2.1,
   ((unregistered_requests shipped bothEnergized (mkReq HTTPMethod.HTTP_GET "/unknown" [] false)
      (by decide)).2.1 (by decide)).2.2.2,
   ((unregistered_requests shipped bothEnergized (mkReq HTTPMethod.HTTP_OPTIONS "/up" [] false)
      (by decide)).1 rfl).1,
   ((unregistered_requests shipped bothEnergized (mkReq HTTPMethod.HTTP_OPTIONS "/up" [] false)
      (by decide)).1 rfl).2.2.1⟩

section Readback

theorem main_relayIsOn_write_same (c : Config) (pin : Pin) (b : Bool) (s : State) :
    Main.relayIsOn c pin (Main.relayWrite c pin b s) = b := by
  rcases c with ⟨al, ba⟩
  cases al <;> cases pin <;> cases b <;>
    simp [Main.relayIsOn, Main.relayWrite, Main.RELAY_ON, Main.RELAY_OFF, digitalWrite,
      digitalRead]

theorem main_relayIsOn_write_other (c : Config) (pin q : Pin) (b : Bool) (s : State)
    (h : q ≠ pin) :
    Main.relayIsOn c pin (Main.relayWrite c q b s) = Main.relayIsOn c pin s := by
  cases pin <;> cases q <;>
    simp_all [Main.relayIsOn, Main.relayWrite, digitalWrite, digitalRead]

theorem main_handleState_pass (c : Config) (r : Request) (s : State)
    (h : (checkAuth c r).1 = true) :
    Main.handleState c r s = (s, [sendJson 200 ("\x7b\"up\":" ++
      boolText (Main.relayIsOn c Pin.PIN_RELAY_UP s) ++ ",\"down\":" ++
      boolText (Main.relayIsOn c Pin.PIN_RELAY_DOWN s) ++ "\x7d")]) := by
  simp [Main.handleState, checkAuth_pass c r h, boolText]

end Readback

/-- C13. In main.cpp, for either polarity, every pin, every boolean `b` and
every prior state: reading a channel back through polarity right after
`relayWrite(pin, b)` gives `b` (`digitalRead(pin) == RELAY_ON` equals `b`),
and a later write to the other pin does not change that. Consequently, after
the last writes `bu` to Up and `bd` to Down (in either order), `GET /state`
(credential check passed) leaves the state unchanged and emits exactly one
response, with code 200 and body `{"up":bu,"down":bd}`, the booleans printed
as `true` / `false`; the same holds through the route dispatch for a request
with path `/state` and method GET. -/
theorem main_state_reports_last_written (c : Config) (r : Request) (s : State)
    (pin q : Pin) (b b2 bu bd : Bool) (ha : (checkAuth c r).1 = true) (hq : q ≠ pin) :
    Main.relayIsOn c pin (Main.relayWrite c pin b s) = b ∧
    Main.relayIsOn c pin (Main.relayWrite c q b2 (Main.relayWrite c pin b s)) = b ∧
    Main.handleState c r
        (Main.relayWrite c Pin.PIN_RELAY_DOWN bd (Main.relayWrite c Pin.PIN_RELAY_UP bu s))
      = (Main.relayWrite c Pin.PIN_RELAY_DOWN bd (Main.relayWrite c Pin.PIN_RELAY_UP bu s),
         [sendJson 200 ("\x7b\"up\":" ++ boolText bu ++ ",\"down\":" ++ boolText bd ++ "\x7d")]) ∧
    Main.handleState c r
        (Main.relayWrite c Pin.PIN_RELAY_UP bu (Main.relayWrite c Pin.PIN_RELAY_DOWN bd s))
      = (Main.relayWrite c Pin.PIN_RELAY_UP bu (Main.relayWrite c Pin.PIN_RELAY_DOWN bd s),
         [sendJson 200 ("\x7b\"up\":" ++ boolText bu ++ ",\"down\":" ++ boolText bd ++ "\x7d")]) ∧
    (Main.handleState c r
        (Main.relayWrite c Pin.PIN_RELAY_DOWN bd (Main.relayWrite c Pin.PIN_RELAY_UP bu s))).2.map
        (fun x => (x.code, x.body))
      = [(200, "\x7b\"up\":" ++ (if bu then "true" else "false") ++ ",\"down\":" ++
            (if bd then "true" else "false") ++ "\x7d")] ∧
    (Main.handleState c r
        (Main.relayWrite c Pin.PIN_RELAY_UP bu (Main.relayWrite c Pin.PIN_RELAY_DOWN bd s))).2.map
        (fun x => (x.code, x.body))
      = [(200, "\x7b\"up\":" ++ (if bu then "true" else "false") ++ ",\"down\":" ++
            (if bd then "true" else "false") ++ "\x7d")] ∧
    (r.uri = "/state" → r.method = HTTPMethod.HTTP_GET →
      (Main.handleClient c
          (Main.relayWrite c Pin.PIN_RELAY_DOWN bd (Main.relayWrite c Pin.PIN_RELAY_UP bu s)) r).1
        = Main.relayWrite c Pin.PIN_RELAY_DOWN bd (Main.relayWrite c Pin.PIN_RELAY_UP bu s) ∧
      (Main.handleClient c
          (Main.relayWrite c Pin.PIN_RELAY_DOWN bd (Main.relayWrite c Pin.PIN_RELAY_UP bu s)) r).2.map
          (fun x => (x.code, x.body))
        = [(200, "\x7b\"up\":" ++ (if bu then "true" else "false") ++ ",\"down\":" ++
            (if bd then "true" else "false") ++ "\x7d")]) := by
  have h1 : Main.handleState c r
        (Main.relayWrite c Pin.PIN_RELAY_DOWN bd (Main.relayWrite c Pin.PIN_RELAY_UP bu s))
      = (Main.relayWrite c Pin.PIN_RELAY_DOWN bd (Main.relayWrite c Pin.PIN_RELAY_UP bu s),
         [sendJson 200 ("\x7b\"up\":" ++ boolText bu ++ ",\"down\":" ++ boolText bd ++ "\x7d")]) := by
    rw [main_handleState_pass c r _ ha,
      main_relayIsOn_write_other c Pin.PIN_RELAY_UP Pin.PIN_RELAY_DOWN bd _ (by decide),
      main_relayIsOn_write_same, main_relayIsOn_write_same]
  have h2 : Main.handleState c r
        (Main.relayWrite c Pin.PIN_RELAY_UP bu (Main.relayWrite c Pin.PIN_RELAY_DOWN bd s))
      = (Main.relayWrite c Pin.PIN_RELAY_UP bu (Main.relayWrite c Pin.PIN_RELAY_DOWN bd s),
         [sendJson 200 ("\x7b\"up\":" ++ boolText bu ++ ",\"down\":" ++ boolText bd ++ "\x7d")]) := by
    rw [main_handleState_pass c r _ ha,
      main_relayIsOn_write_other c Pin.PIN_RELAY_DOWN Pin.PIN_RELAY_UP bu _ (by decide),
      main_relayIsOn_write_same, main_relayIsOn_write_same]
  refine ⟨main_relayIsOn_write_same c pin b s, ?_, h1, h2, ?_, ?_, fun hu hm => ?_⟩
  · rw [main_relayIsOn_write_other c pin q b2 _ hq, main_relayIsOn_write_same]
  · rw [h1]; rfl
  · rw [h2]; rfl
  · have hd : Main.handleClient c
          (Main.relayWrite c Pin.PIN_RELAY_DOWN bd (Main.relayWrite c Pin.PIN_RELAY_UP bu s)) r
        = Main.handleState c r
          (Main.relayWrite c Pin.PIN_RELAY_DOWN bd (Main.relayWrite c Pin.PIN_RELAY_UP bu s)) := by
      simp [Main.handleClient, hu, hm]
    rw [hd, h1]
    exact ⟨rfl, rfl⟩

/-- Witness for C13: active-low board, Up written on and Down written off;
the `/state` body is `{"up":true,"down":false}`. -/
theorem main_state_reports_last_written_witness :
    (checkAuth shipped getState).1 = true ∧ Pin.PIN_RELAY_DOWN ≠ Pin.PIN_RELAY_UP ∧
    Main.relayIsOn shipped Pin.PIN_RELAY_UP
      (Main.relayWrite shipped Pin.PIN_RELAY_UP true bothEnergized) = true ∧
    (Main.handleState shipped getState
        (Main.relayWrite shipped Pin.PIN_RELAY_DOWN false
          (Main.relayWrite shipped Pin.PIN_RELAY_UP true bothEnergized))).2
      = [sendJson 200 ("\x7b\"up\":" ++ boolText true ++ ",\"down\":" ++ boolText false ++ "\x7d")] ∧
    (Main.handleClient shipped
        (Main.relayWrite shipped Pin.PIN_RELAY_DOWN false
          (Main.relayWrite shipped Pin.PIN_RELAY_UP true bothEnergized)) getState).2.map
        (fun x => (x.code, x.body))
      = [(200, "\x7b\"up\":true,\"down\":false\x7d")] :=
  ⟨rfl, by decide,
   (main_state_reports_last_written shipped getState bothEnergized Pin.PIN_RELAY_UP
      Pin.PIN_RELAY_DOWN true false true false rfl (by decide)).1,
   congrArg Prod.snd
     (main_state_reports_last_written shipped getState bothEnergized Pin.PIN_RELAY_UP
        Pin.PIN_RELAY_DOWN true false true false rfl (by decide)).2.2.1,
   ((main_state_reports_last_written shipped getState bothEnergized Pin.PIN_RELAY_UP
        Pin.PIN_RELAY_DOWN true false true false rfl (by decide)).2.2.2.2.2.2 rfl rfl).2.trans
     (by decide)⟩

section Cors

theorem hasCors_sendJson (code : Nat) (json : String) : hasCors (sendJson code json) = true := by
  show corsHeaders.all (fun h => corsHeaders.contains h) = true
  decide

theorem hasCors_handleOptions : hasCors handleOptions = true := by
  decide

theorem handleNotFound_cors (r : Request) (s : State) :
    (handleNotFound r s).2.all hasCors = true := by
  unfold handleNotFound
  split_ifs <;> simp [hasCors_sendJson, hasCors_handleOptions]

theorem responses_carry_cors_unless_challenged (c : Config) (s : State) (r : Request)
    (h : (checkAuth c r).1 = true) :
    (Server.handleClient c s r).2.all hasCors = true ∧
    (Main.handleClient c s r).2.all hasCors = true := by
  have hc := checkAuth_pass c r h
  constructor
  · unfold Server.handleClient
    split_ifs
    · simp [Server.handleHealth, hc, hasCors_sendJson]
    · simp [Server.handleState, hc, hasCors_sendJson]
    · simp [Server.handleUp, hc, hasCors_sendJson]
    · simp [Server.handleDown, hc, hasCors_sendJson]
    · simp [Server.handleStop, hc, hasCors_sendJson]
    · exact handleNotFound_cors r s
  · unfold Main.handleClient
    split_ifs
    · simp [Main.handleHealth, hc, hasCors_sendJson]
    · simp [Main.handleState, hc, hasCors_sendJson]
    · simp [Main.handleUp, hc, hasCors_sendJson]
    · simp [Main.handleDown, hc, hasCors_sendJson]
    · simp [Main.handleStop, hc, hasCors_sendJson]
    · exact handleNotFound_cors r s

end Cors

/-- C14 (code evaluated at the failing input). With Basic Auth compiled in, an
unauthenticated `GET /health` gets, in both source files, exactly one
response: the challenge of `requestAuthentication()`, a 401 whose only header
is `WWW-Authenticate`; it carries none of the three CORS headers that
`sendJson` and `handleOptions` put on every other response. -/
theorem auth_challenge_lacks_cors :
    (Main.handleClient withAuth bothEnergized getHealth).2 = [requestAuthentication] ∧
    (Server.handleClient withAuth bothEnergized getHealth).2 = [requestAuthentication] ∧
    requestAuthentication.code = 401 ∧
    requestAuthentication.headers.map Prod.fst = ["WWW-Authenticate"] ∧
    hasCors requestAuthentication = false ∧
    (Main.handleClient withAuth bothEnergized getHealth).2.all hasCors = false ∧
    (Server.handleClient withAuth bothEnergized getHealth).2.all hasCors = false := by
  refine ⟨rfl, rfl, rfl, rfl, ?_, ?_, ?_⟩ <;> decide

section Agreement

theorem server_setup_agrees (c : Config) (s : State) : Agrees c (Server.setup c s) := by
  rcases c with ⟨al, ba⟩
  cases al <;>
    simp [Agrees, Server.setup, Server.stopAll, Server.relayWrite, digitalWrite, pinModeOutput,
      energized]

theorem server_stopAll_agrees (c : Config) (s : State) : Agrees c (Server.stopAll c s) := by
  rcases c with ⟨al, ba⟩
  cases al <;> simp [Agrees, Server.stopAll, Server.relayWrite, digitalWrite, energized]

theorem server_moveUp_agrees (c : Config) (s : State) : Agrees c (Server.moveUp c s) := by
  rcases c with ⟨al, ba⟩
  cases al <;> simp [Agrees, Server.moveUp, Server.relayWrite, digitalWrite, energized]

theorem server_moveDown_agrees (c : Config) (s : State) : Agrees c (Server.moveDown c s) := by
  rcases c with ⟨al, ba⟩
  cases al <;> simp [Agrees, Server.moveDown, Server.relayWrite, digitalWrite, energized]

theorem server_handleClient_agrees (c : Config) (s : State) (r : Request) (h : Agrees c s) :
    Agrees c (Server.handleClient c s r).1 := by
  unfold Server.handleClient
  split_ifs
  · dsimp only [Server.handleHealth]; split_ifs <;> exact h
  · dsimp only [Server.handleState]; split_ifs <;> exact h
  · dsimp only [Server.handleUp]; split_ifs
    · exact h
    · exact server_moveUp_agrees c s
  · dsimp only [Server.handleDown]; split_ifs
    · exact h
    · exact server_moveDown_agrees c s
  · dsimp only [Server.handleStop]; split_ifs
    · exact h
    · exact server_stopAll_agrees c s
  · dsimp only [handleNotFound]; split_ifs <;> exact h

theorem server_run_agrees (c : Config) (rs : List Request) :
    ∀ s : State, Agrees c s → Agrees c (Server.run c s rs) := by
  induction rs with
  | nil => intro s h; exact h
  | cons r rs ih =>
    intro s h
    exact ih _ (server_handleClient_agrees c s r h)

theorem agrees_cases (c : Config) (s : State) (h : Agrees c s) :
    (s.g_state = MotionState.MovingUp ↔ (energized c s.up = true ∧ energized c s.down = false)) ∧
    (s.g_state = MotionState.MovingDown ↔
      (energized c s.down = true ∧ energized c s.up = false)) ∧
    (s.g_state = MotionState.Stopped ↔
      (energized c s.up = false ∧ energized c s.down = false)) := by
  rcases s with ⟨u, d, g, tr⟩
  cases g <;> simp_all [Agrees]

theorem server_state_body_cases (g : MotionState) :
    ([sendJson 200 ("\x7b\"state\":\"" ++ stateToString g ++ "\"\x7d")]
        = [sendJson 200 "\x7b\"state\":\"up\"\x7d"] ↔ g = MotionState.MovingUp) ∧
    ([sendJson 200 ("\x7b\"state\":\"" ++ stateToString g ++ "\"\x7d")]
        = [sendJson 200 "\x7b\"state\":\"down\"\x7d"] ↔ g = MotionState.MovingDown) ∧
    ([sendJson 200 ("\x7b\"state\":\"" ++ stateToString g ++ "\"\x7d")]
        = [sendJson 200 "\x7b\"state\":\"stopped\"\x7d"] ↔ g = MotionState.Stopped) := by
  cases g <;> decide

theorem server_handleState_pass (c : Config) (r : Request) (s : State)
    (h : (checkAuth c r).1 = true) :
    Server.handleState c r s
      = (s, [sendJson 200 ("\x7b\"state\":\"" ++ stateToString s.g_state ++ "\"\x7d")]) := by
  simp [Server.handleState, checkAuth_pass c r h]

end Agreement

/-- C15. In heating-server.cpp, for either polarity, any pin levels before boot
and any finite sequence of requests served after `setup()`: `GET /state`
(credential check passed) answers 200 with body `{"state":"up"}` exactly when
Up is energized and Down is not, with body `{"state":"down"}` exactly when Down
is energized and Up is not, and with body `{"state":"stopped"}` exactly when
both are de-energized; and `stateToString` maps the three `MotionState` values
to three distinct strings. -/
theorem server_state_agrees_with_relays (c : Config) (up down : Level) (rs : List Request)
    (r : Request) (ha : (checkAuth c r).1 = true) :
    ((Server.handleState c r (Server.run c (Server.setup c (powerOn up down)) rs)).2
        = [sendJson 200 "\x7b\"state\":\"up\"\x7d"] ↔
      (energized c (Server.run c (Server.setup c (powerOn up down)) rs).up = true ∧
       energized c (Server.run c (Server.setup c (powerOn up down)) rs).down = false)) ∧
    ((Server.handleState c r (Server.run c (Server.setup c (powerOn up down)) rs)).2
        = [sendJson 200 "\x7b\"state\":\"down\"\x7d"] ↔
      (energized c (Server.run c (Server.setup c (powerOn up down)) rs).down = true ∧
       energized c (Server.run c (Server.setup c (powerOn up down)) rs).up = false)) ∧
    ((Server.handleState c r (Server.run c (Server.setup c (powerOn up down)) rs)).2
        = [sendJson 200 "\x7b\"state\":\"stopped\"\x7d"] ↔
      (energized c (Server.run c (Server.setup c (powerOn up down)) rs).up = false ∧
       energized c (Server.run c (Server.setup c (powerOn up down)) rs).down = false)) ∧
    Function.Injective stateToString := by
  have hag := agrees_cases c _ (server_run_agrees c rs _ (server_setup_agrees c (powerOn up down)))
  have hb := server_state_body_cases (Server.run c (Server.setup c (powerOn up down)) rs).g_state
  rw [server_handleState_pass c r _ ha]
  refine ⟨hb.1.trans hag.1, hb.2.1.trans hag.2.1, hb.2.2.trans hag.2.2, ?_⟩
  intro a b hab
  cases a <;> cases b <;> first | rfl | exact absurd hab (by decide)

/-- Witness for C15: after boot, `POST /up`, `POST /down`, the state query
answers "down" and only Down is energized. -/
theorem server_state_agrees_with_relays_witness :
    (checkAuth shipped getState).1 = true ∧
    ((Server.handleState shipped getState
        (Server.run shipped (Server.setup shipped (powerOn Level.LOW Level.LOW))
          [postUp, postDown])).2 = [sendJson 200 "\x7b\"state\":\"down\"\x7d"] ↔
      (energized shipped (Server.run shipped (Server.setup shipped (powerOn Level.LOW Level.LOW))
          [postUp, postDown]).down = true ∧
       energized shipped (Server.run shipped (Server.setup shipped (powerOn Level.LOW Level.LOW))
          [postUp, postDown]).up = false)) :=
  ⟨rfl, (server_state_agrees_with_relays shipped Level.LOW Level.LOW [postUp, postDown]
      getState rfl).2.1⟩

/-- C17. The two forms of `relayWrite` are equivalent: for every polarity,
pin, boolean and prior state, the branching form of heating-server.cpp and the
constant-based form of main.cpp perform the same `digitalWrite`; the level
driven is the XOR resolution `resolveLevel`, so the pin reads `HIGH` afterwards
exactly when `on XOR RELAY_ACTIVE_LOW` is true. -/
theorem relayWrite_forms_agree (c : Config) (pin : Pin) (b : Bool) (s : State) :
    Server.relayWrite c pin b s = Main.relayWrite c pin b s ∧
    Main.relayWrite c pin b s = digitalWrite pin (resolveLevel c.RELAY_ACTIVE_LOW b) s ∧
    Server.relayWrite c pin b s = digitalWrite pin (resolveLevel c.RELAY_ACTIVE_LOW b) s ∧
    (digitalRead pin (Main.relayWrite c pin b s) = Level.HIGH ↔
      xor b c.RELAY_ACTIVE_LOW = true) ∧
    (digitalRead pin (Server.relayWrite c pin b s) = Level.HIGH ↔
      xor b c.RELAY_ACTIVE_LOW = true) := by
  rcases c with ⟨al, ba⟩
  cases al <;> cases b <;> cases pin <;>
    simp [Server.relayWrite, Main.relayWrite, Main.RELAY_ON, Main.RELAY_OFF, resolveLevel,
      digitalWrite, digitalRead]

section JsonBody

theorem scanString_plain (w tail : List Char)
    (hw : ∀ ch ∈ w, ch.toNat ≠ 34 ∧ ch.toNat ≠ 92 ∧ 32 ≤ ch.toNat) :
    scanString (w ++ Char.ofNat 34 :: tail) = some (w, tail) := by
  induction w with
  | nil =>
    have h34 : (Char.ofNat 34).toNat = 34 := by decide
    simp only [List.nil_append]
    unfold scanString
    simp [h34]
  | cons ch w ih =>
    have h1 := hw ch (List.mem_cons_self _ _)
    have h2 := ih (fun x hx => hw x (List.mem_cons_of_mem _ hx))
    simp only [List.cons_append]
    unfold scanString
    simp [h1.1, h1.2.1, Nat.not_lt.mpr h1.2.2, h2]

theorem scanMember_ok (tail : List Char) :
    scanMember ("\"ok\":true".toList ++ tail) = some (("ok", JVal.bool true), tail) := by
  simp [scanMember, scanString, scanValue, stripLit, jsonUnescape]


theorem scanMember_action (tail : List Char) :
    scanMember ("\"action\":\"stop\"".toList ++ tail) = some (("action", JVal.str "stop"), tail) := by
  have h0 : ∀ t : List Char, scanString (Char.ofNat 34 :: t) = some ([], t) :=
    fun t => scanString_plain [] t (by simp)
  simp [scanMember, scanString, scanValue, stripLit, jsonUnescape, h0]

theorem scanMember_which (w tail : List Char)
    (hw : ∀ ch ∈ w, ch.toNat ≠ 34 ∧ ch.toNat ≠ 92 ∧ 32 ≤ ch.toNat) :
    scanMember ("\"which\":\"".toList ++ (w ++ Char.ofNat 34 :: tail))
      = some (("which", JVal.str (String.mk w)), tail) := by
  have h := scanString_plain w tail hw
  simp [scanMember, scanString, scanValue, stripLit, jsonUnescape, h]


theorem scanMembers_stop_body (n : Nat) (w : List Char)
    (hw : ∀ ch ∈ w, ch.toNat ≠ 34 ∧ ch.toNat ≠ 92 ∧ 32 ≤ ch.toNat) :
    scanMembers (n + 3) ("\"ok\":true".toList ++ (Char.ofNat 44 ::
        ("\"action\":\"stop\"".toList ++ (Char.ofNat 44 ::
          ("\"which\":\"".toList ++ (w ++ Char.ofNat 34 :: [Char.ofNat 125]))))))
      = Decoded.object [("ok", JVal.bool true), ("action", JVal.str "stop"),
          ("which", JVal.str (String.mk w))] := by
  have h44 : (Char.ofNat 44).toNat = 44 := by decide
  have h125 : (Char.ofNat 125).toNat = 125 := by decide
  rw [scanMembers, scanMember_ok]
  simp only [h44]
  rw [scanMembers, scanMember_action]
  simp only [h44]
  rw [scanMembers, scanMember_which w _ hw]
  simp [h125]

theorem decode_stop_body (w : String)
    (hw : ∀ ch ∈ w.toList, ch.toNat ≠ 34 ∧ ch.toNat ≠ 92 ∧ 32 ≤ ch.toNat) :
    decodeObject ("\x7b\"ok\":true,\"action\":\"stop\",\"which\":\"" ++ w ++ "\"\x7d")
      = Decoded.object [("ok", JVal.bool true), ("action", JVal.str "stop"),
          ("which", JVal.str w)] := by
  have hl : ("\x7b\"ok\":true,\"action\":\"stop\",\"which\":\"" ++ w ++ "\"\x7d").toList
      = Char.ofNat 123 :: ("\"ok\":true".toList ++ (Char.ofNat 44 ::
          ("\"action\":\"stop\"".toList ++ (Char.ofNat 44 ::
            ("\"which\":\"".toList ++ (w.toList ++ Char.ofNat 34 :: [Char.ofNat 125])))))) := by
    simp [String.toList, String.data_append]
  have h123 : (Char.ofNat 123).toNat = 123 := by decide
  have hlen : ("\"ok\":true".toList ++ (Char.ofNat 44 ::
          ("\"action\":\"stop\"".toList ++ (Char.ofNat 44 ::
            ("\"which\":\"".toList ++ (w.toList ++ Char.ofNat 34 :: [Char.ofNat 125])))))).length
      = (w.toList.length + 34) + 3 := by
    simp [String.toList]
  unfold decodeObject
  rw [hl]
  simp only [h123, if_true]
  rw [hlen, scanMembers_stop_body _ w.toList hw]
  simp [String.toList]

theorem main_stop_body_json_for_plain_selectors (c : Config) (r : Request) (s : State)
    (ha : (checkAuth c r).1 = true)
    (hw : ∀ ch ∈ (serverArg r "relay").toList, ch.toNat ≠ 34 ∧ ch.toNat ≠ 92 ∧ 32 ≤ ch.toNat) :
    (Main.handleStop c r s).2.map (fun x => decodeObject x.body)
      = [Decoded.object [("ok", JVal.bool true), ("action", JVal.str "stop"),
          ("which", JVal.str (serverArg r "relay"))]] := by
  rw [main_handleStop_pass c r s ha]
  simp only [List.map, sendJson]
  rw [decode_stop_body _ hw]

end JsonBody

/-- C16 (code evaluated at the failing inputs). In main.cpp with the shipped
configuration, `POST /stop` with the `relay` value `a"b` answers 200 with the
body `{"ok":true,"action":"stop","which":"a"b"}`, and with the `relay` value
`a\` the body `{"ok":true,"action":"stop","which":"a\"}`: the value is pasted
in unescaped and neither body decodes as a JSON object. With `relay=up` the
body decodes and its "which" member is "up". -/
theorem main_stop_body_not_json :
    (Main.handleStop shipped (postStop [("relay", quoteSelector)]) bothEnergized).2.map
        (fun x => (x.code, x.body))
      = [(200, "\x7b\"ok\":true,\"action\":\"stop\",\"which\":\"a\"b\"\x7d")] ∧
    (Main.handleStop shipped (postStop [("relay", quoteSelector)]) bothEnergized).2.map
        (fun x => decodeObject x.body) = [Decoded.malformed] ∧
    (Main.handleStop shipped (postStop [("relay", backslashSelector)]) bothEnergized).2.map
        (fun x => (x.code, x.body))
      = [(200, "\x7b\"ok\":true,\"action\":\"stop\",\"which\":\"a\\\"\x7d")] ∧
    (Main.handleStop shipped (postStop [("relay", backslashSelector)]) bothEnergized).2.map
        (fun x => decodeObject x.body) = [Decoded.malformed] ∧
    (Main.handleStop shipped (postStop [("relay", "up")]) bothEnergized).2.map
        (fun x => decodeObject x.body)
      = [Decoded.object [("ok", JVal.bool true), ("action", JVal.str "stop"),
          ("which", JVal.str "up")]] := by
  refine ⟨?_, ?_, ?_, ?_, ?_⟩ <;> decide

end Heating
